import Mathlib

/-!
Verification of the loom durable workflow engine core against its
natural-language specification.  The Python sources under `src/loom` are
shallowly embedded: JSON payloads become `Val`, database rows become
structures, every `Database` method of `src/loom/database/db.py` becomes a
pure function on a `Store`, and the replay machinery of
`src/loom/core/{context,state,engine,runner,handle}.py` becomes functions
over an explicit context/result type.
-/

namespace Loom

/-- JSON-like values used for event payloads, workflow inputs and state. -/
inductive Val where
  | str : String → Val
  | int : Int → Val
  | bool : Bool → Val
  | null : Val
  | arr : List Val → Val
  | obj : List (String × Val) → Val

/-- A JSON object / Python dict, as an association list in insertion order. -/
abbrev Payload := List (String × Val)

/-- Python `d.get(k)` / `d[k]`-style lookup (first binding wins, as `setKey`
never duplicates keys). -/
def lookupKey (p : Payload) (k : String) : Option Val :=
  match p with
  | [] => none
  | (k', v) :: rest => if k' = k then some v else lookupKey rest k

/-- Python `d[k] = v`: replace the binding if the key exists, else append. -/
def setKey (p : Payload) (k : String) (v : Val) : Payload :=
  match p with
  | [] => [(k, v)]
  | (k', v') :: rest => if k' = k then (k, v) :: rest else (k', v') :: setKey rest k v

/-- Python `dst.update(src)`: set every binding of `src` in order. -/
def updateKeys (dst : Payload) (src : Payload) : Payload :=
  src.foldl (fun acc kv => setKey acc kv.1 kv.2) dst

/-- A row of the `events` table; the list position in `Store.events` is the
autoincrement `id`, so list order is id order. -/
structure EventRow where
  workflow_id : String
  type : String
  payload : Payload

/-- An `Event` as returned by `get_workflow_events` (type and payload only). -/
structure Event where
  type : String
  payload : Payload

/-- A row of the `tasks` table.  `run_at` and timestamps are naturals;
list position in `Store.tasks` is creation order (`created_at` order). -/
structure Task where
  id : String
  workflow_id : String
  kind : String
  target : String
  run_at : Nat
  status : String
  attempts : Nat
  max_attempts : Nat
  last_error : Option String

/-- A row of the `workflows` table. -/
structure WorkflowRow where
  id : String
  name : String
  description : String
  version : String
  status : String
  module : String
  input : Val

/-- The persistent store: the three row families the core claims touch. -/
structure Store where
  workflows : List WorkflowRow
  events : List EventRow
  tasks : List Task

/-- Database errors surfaced to callers. -/
inductive DbErr where
  | workflowNotFound : DbErr
  | notRunning : DbErr
  | pyError : String → DbErr

/-- The `str(e)` of an exception surfaced to the runner. -/
def DbErr.message : DbErr → String
  | .workflowNotFound => "workflow not found"
  | .notRunning => "workflow not running"
  | .pyError m => m

/-- `SELECT * FROM workflows WHERE id = ?` (first match; ids are unique). -/
def findWorkflow (s : Store) (workflow_id : String) : Option WorkflowRow :=
  s.workflows.find? (fun w => w.id = workflow_id)

/-- `Database.get_workflow_info`: raises `WorkflowNotFoundError` if absent. -/
def get_workflow_info (s : Store) (workflow_id : String) : Except DbErr WorkflowRow :=
  match findWorkflow s workflow_id with
  | some w => .ok w
  | none => .error .workflowNotFound

/-- `Database.get_workflow_status`. -/
def get_workflow_status (s : Store) (workflow_id : String) : Except DbErr String :=
  match findWorkflow s workflow_id with
  | some w => .ok w.status
  | none => .error .workflowNotFound

/-- `Database.get_workflow_events`: events of the workflow ordered by id. -/
def get_workflow_events (s : Store) (workflow_id : String) : List Event :=
  (s.events.filter (fun e => e.workflow_id = workflow_id)).map
    (fun e => { type := e.type, payload := e.payload })

/-- `Database.create_event`: unconditional `INSERT INTO events`. -/
def create_event (s : Store) (workflow_id : String) (type : String)
    (payload : Payload) : Store :=
  { s with events := s.events ++ [⟨workflow_id, type, payload⟩] }

/-- `Database.create_signal_event`: requires the workflow to exist and be
RUNNING, then inserts a SIGNAL_RECEIVED event whose payload holds the
signal data under the key "payload" (plus "name" and "sent_at"). -/
def create_signal_event (s : Store) (workflow_id : String) (name : String)
    (payload : Payload) (sent_at : String) : Except DbErr Store :=
  match findWorkflow s workflow_id with
  | none => .error .workflowNotFound
  | some row =>
    if row.status ≠ "RUNNING" then .error .notRunning
    else
      .ok (create_event s workflow_id "SIGNAL_RECEIVED"
        [("name", .str name), ("payload", .obj payload), ("sent_at", .str sent_at)])

/-- The terminal statuses tested by `workflow_failed`, `complete_workflow`
and `cancel_workflow` (note: the single-L spelling "CANCELED"). -/
def terminalCheck (status : String) : Bool :=
  status = "COMPLETED" || status = "FAILED" || status = "CANCELED"

/-- Set the status of pending tasks of a workflow to FAILED with an error. -/
def failPendingTasks (tasks : List Task) (workflow_id : String) (err : String) :
    List Task :=
  tasks.map (fun (t : Task) =>
    if t.workflow_id = workflow_id ∧ t.status = "PENDING" then
      { t with status := "FAILED", last_error := some err }
    else t)

/-- `Database.workflow_failed`: append WORKFLOW_FAILED, set status FAILED and
fail pending tasks — skipped if the status passes `terminalCheck`. -/
def workflow_failed (s : Store) (workflow_id : String) (error : String)
    (task_id : Option String) (task_kind : Option String) (failed_at : String) :
    Except DbErr Store :=
  match get_workflow_info s workflow_id with
  | .error e => .error e
  | .ok w =>
    if terminalCheck w.status then .ok s
    else
      let base : Payload := [("error", .str error), ("failed_at", .str failed_at)]
      let base := match task_id with
        | some tid => base ++ [("task_id", .str tid)]
        | none => base
      let payload := match task_kind with
        | some k => base ++ [("task_kind", .str k)]
        | none => base
      let s := create_event s workflow_id "WORKFLOW_FAILED" payload
      let s := { s with workflows := s.workflows.map (fun (w : WorkflowRow) =>
        if w.id = workflow_id then { w with status := "FAILED" } else w) }
      .ok { s with tasks := failPendingTasks s.tasks workflow_id "workflow failed" }

/-- `Database.complete_workflow`: append WORKFLOW_COMPLETED, set status
COMPLETED, complete running STEP tasks — skipped when terminal. -/
def complete_workflow (s : Store) (workflow_id : String) (completed_at : String) :
    Except DbErr Store :=
  match get_workflow_info s workflow_id with
  | .error e => .error e
  | .ok w =>
    if terminalCheck w.status then .ok s
    else
      let s := create_event s workflow_id "WORKFLOW_COMPLETED"
        [("completed_at", .str completed_at)]
      let s := { s with workflows := s.workflows.map (fun (w : WorkflowRow) =>
        if w.id = workflow_id then { w with status := "COMPLETED" } else w) }
      .ok { s with tasks := s.tasks.map (fun (t : Task) =>
        if t.workflow_id = workflow_id ∧ t.kind = "STEP" ∧ t.status = "RUNNING" then
          { t with status := "COMPLETED" }
        else t) }

/-- `Database.cancel_workflow`: append WORKFLOW_CANCELLED, set status to the
double-L string "CANCELLED" (exactly as the UPDATE statement does), and fail
pending tasks — skipped when the current status passes `terminalCheck`. -/
def cancel_workflow (s : Store) (workflow_id : String) (reason : Option String)
    (canceled_at : String) : Except DbErr Store :=
  match get_workflow_info s workflow_id with
  | .error e => .error e
  | .ok w =>
    if terminalCheck w.status then .ok s
    else
      let payload : Payload :=
        [("reason", .str (reason.getD "Cancelled")), ("canceled_at", .str canceled_at)]
      let s := create_event s workflow_id "WORKFLOW_CANCELLED" payload
      let s := { s with workflows := s.workflows.map (fun (w : WorkflowRow) =>
        if w.id = workflow_id then { w with status := "CANCELLED" } else w) }
      .ok { s with tasks := failPendingTasks s.tasks workflow_id "workflow cancelled" }

/-- `Database.task_completed`: UPDATE guarded by `status = 'RUNNING'`. -/
def task_completed (s : Store) (task_id : String) : Store :=
  { s with tasks := s.tasks.map (fun (t : Task) =>
      if t.id = task_id ∧ t.status = "RUNNING" then { t with status := "COMPLETED" }
      else t) }

/-- `Database.task_failed`: UPDATE guarded by `status = 'RUNNING'`. -/
def task_failed (s : Store) (task_id : String) (error_message : String) : Store :=
  { s with tasks := s.tasks.map (fun (t : Task) =>
      if t.id = task_id ∧ t.status = "RUNNING" then
        { t with status := "FAILED", last_error := some error_message }
      else t) }

/-- `Database.schedule_retry`: UPDATE with no status guard at all. -/
def schedule_retry (s : Store) (task_id : String) (run_at : Nat) (error : String) :
    Store :=
  { s with tasks := s.tasks.map (fun (t : Task) =>
      if t.id = task_id then
        { t with status := "PENDING", run_at := run_at, last_error := some error }
      else t) }

/-- `Database.release_task`: RUNNING back to PENDING, `run_at` unchanged. -/
def release_task (s : Store) (task_id : String) : Store :=
  { s with tasks := s.tasks.map (fun (t : Task) =>
      if t.id = task_id ∧ t.status = "RUNNING" then { t with status := "PENDING" }
      else t) }

/-- A task is eligible for claiming: PENDING with `run_at <= now`. -/
def eligible (now : Nat) (t : Task) : Bool :=
  t.status = "PENDING" && t.run_at ≤ now

/-- The correlated subquery of `claim_task`: the eligible task with minimal
`run_at`, ties broken by creation (list) order. -/
def pickClaim (now : Nat) (tasks : List Task) : Option Task :=
  tasks.foldl (fun acc t =>
    if eligible now t then
      match acc with
      | none => some t
      | some b => if t.run_at < b.run_at then some t else some b
    else acc) none

/-- `Database.claim_task`: atomically set the picked task RUNNING with
`attempts + 1` and return the updated row. -/
def claim_task (s : Store) (now : Nat) : Option Task × Store :=
  match pickClaim now s.tasks with
  | none => (none, s)
  | some t =>
    let t' := { t with status := "RUNNING", attempts := t.attempts + 1 }
    (some t',
     { s with tasks := s.tasks.map (fun u => if u.id = t.id then
        { u with status := "RUNNING", attempts := u.attempts + 1 } else u) })

/-- Activity metadata as built by `WorkflowContext._extract_activity_metadata`. -/
structure ActivityMetadata where
  name : String
  description : String
  retry_count : Nat
  timeout_seconds : Nat
  func : String
  module : String
  args : List Val

/-- The JSON serialization of activity metadata written into the
ACTIVITY_SCHEDULED payload. -/
def metadataPayload (m : ActivityMetadata) : Payload :=
  [("name", .str m.name), ("description", .str m.description),
   ("retry_count", .int m.retry_count), ("timeout_seconds", .int m.timeout_seconds),
   ("func", .str m.func), ("module", .str m.module), ("args", .arr m.args)]

/-- `Database.create_activity`: one transaction appending ACTIVITY_SCHEDULED
and inserting a PENDING ACTIVITY task with `max_attempts = retry_count`. -/
def create_activity (s : Store) (workflow_id : String) (metadata : ActivityMetadata)
    (activity_id : String) (now : Nat) : Store :=
  let s := create_event s workflow_id "ACTIVITY_SCHEDULED" (metadataPayload metadata)
  { s with tasks := s.tasks ++
    [{ id := activity_id, workflow_id := workflow_id, kind := "ACTIVITY",
       target := metadata.name, run_at := now, status := "PENDING",
       attempts := 0, max_attempts := metadata.retry_count, last_error := none }] }

/-- `Database.get_activity_event`: the ACTIVITY_SCHEDULED events of the
workflow whose payload name matches, ordered by id, `OFFSET attempts - 1`
(SQLite treats a negative offset as zero, as does `Nat` subtraction). -/
def get_activity_event (s : Store) (workflow_id : String) (activity_name : String)
    (attempts : Nat) : Option Event :=
  let rows := s.events.filter (fun e =>
    e.workflow_id = workflow_id && e.type = "ACTIVITY_SCHEDULED" &&
    match lookupKey e.payload "name" with
    | some (.str n) => n = activity_name
    | _ => false)
  match (rows.drop (attempts - 1)).head? with
  | some e => some { type := e.type, payload := e.payload }
  | none => none

/-- `Database.create_timer`: append TIMER_SCHEDULED and insert a PENDING
TIMER task with `run_at = fire_at` and target `__timer__`. -/
def create_timer (s : Store) (workflow_id : String) (fire_at : Nat)
    (timer_id : String) : Store :=
  let s := create_event s workflow_id "TIMER_SCHEDULED"
    [("timer_id", .str timer_id), ("fire_at", .int fire_at)]
  { s with tasks := s.tasks ++
    [{ id := timer_id, workflow_id := workflow_id, kind := "TIMER",
       target := "__timer__", run_at := fire_at, status := "PENDING",
       attempts := 0, max_attempts := 1, last_error := none }] }

/-- `Database.recreate_workflow_task`: look the workflow up (can raise) and
insert a fresh PENDING STEP task unconditionally. -/
def recreate_workflow_task (s : Store) (workflow_id : String) (task_id : String)
    (now : Nat) : Except DbErr Store :=
  match get_workflow_info s workflow_id with
  | .error e => .error e
  | .ok w =>
    .ok { s with tasks := s.tasks ++
      [{ id := task_id, workflow_id := workflow_id, kind := "STEP",
         target := w.name, run_at := now, status := "PENDING",
         attempts := 0, max_attempts := 1, last_error := none }] }

/-- `Database.rotate_workflow_driver`: complete every RUNNING STEP task of
the workflow, then enqueue a fresh PENDING STEP task. -/
def rotate_workflow_driver (s : Store) (workflow_id : String) (task_id : String)
    (now : Nat) : Except DbErr Store :=
  match get_workflow_info s workflow_id with
  | .error e => .error e
  | .ok w =>
    let s := { s with tasks := s.tasks.map (fun (t : Task) =>
      if t.workflow_id = workflow_id ∧ t.kind = "STEP" ∧ t.status = "RUNNING" then
        { t with status := "COMPLETED" }
      else t) }
    .ok { s with tasks := s.tasks ++
      [{ id := task_id, workflow_id := workflow_id, kind := "STEP",
         target := w.name, run_at := now, status := "PENDING",
         attempts := 0, max_attempts := 1, last_error := none }] }

/-- `Database.workflow_is_completed`: does a WORKFLOW_COMPLETED event exist. -/
def workflow_is_completed (s : Store) (workflow_id : String) : Bool :=
  s.events.any (fun e => e.workflow_id = workflow_id ∧ e.type = "WORKFLOW_COMPLETED")

/-- Workflow metadata passed to `create_workflow` (`WorkflowInput`). -/
structure WorkflowInput where
  name : String
  description : String
  version : String
  status : String
  module : String

/-- `Database.create_workflow`: insert the workflow row, append
WORKFLOW_STARTED with the input, and enqueue the first STEP task. -/
def create_workflow (s : Store) (wf : WorkflowInput) (input : Val)
    (workflow_id task_id : String) (now : Nat) : Store :=
  let s := { s with workflows := s.workflows ++
    [{ id := workflow_id, name := wf.name, description := wf.description,
       version := wf.version, status := wf.status, module := wf.module,
       input := input }] }
  let s := create_event s workflow_id "WORKFLOW_STARTED" [("input", input)]
  { s with tasks := s.tasks ++
    [{ id := task_id, workflow_id := workflow_id, kind := "STEP",
       target := wf.name, run_at := now, status := "PENDING",
       attempts := 0, max_attempts := 1, last_error := none }] }

/-! ### Workflow context (`src/loom/core/context.py`) and state proxy
(`src/loom/core/state.py`).

Python exceptions are made explicit: `Res` distinguishes a normal return,
the `StopReplay` sentinel, `NonDeterministicWorkflowError`, and any other
exception (`KeyError` etc.), each carrying the context and store as left
behind by the already-committed side effects. -/

/-- The per-tick workflow context.  `state` is the in-memory map behind the
`StateProxy`; `batch` is the proxy's `_batch` accumulator. -/
structure Ctx where
  id : String
  input : Val
  history : List Event
  cursor : Nat
  original_len : Nat
  state : Payload
  batch : Option (List (String × Payload))

/-- Result of running context/step code: normal return, `StopReplay`,
`NonDeterministicWorkflowError`, or another exception with its message. -/
inductive Res (α : Type) where
  | ok (a : α) (ctx : Ctx) (s : Store)
  | stopReplay (ctx : Ctx) (s : Store)
  | nondet (msg : String) (ctx : Ctx) (s : Store)
  | exn (msg : String) (ctx : Ctx) (s : Store)

/-- `WorkflowContext._peek`. -/
def _peek (ctx : Ctx) : Option Event :=
  ctx.history.get? ctx.cursor

/-- `WorkflowContext._consume` (only ever called after a successful peek, so
the RuntimeError branch of the source is unreachable; the cursor advances). -/
def _consume (ctx : Ctx) : Ctx :=
  { ctx with cursor := ctx.cursor + 1 }

/-- Number of leading STEP_START/STEP_END events in a history suffix. -/
def skipCount (l : List Event) : Nat :=
  match l with
  | [] => 0
  | e :: rest =>
    if e.type = "STEP_START" ∨ e.type = "STEP_END" then skipCount rest + 1 else 0

/-- `WorkflowContext._skip_step_events`. -/
def _skip_step_events (ctx : Ctx) : Ctx :=
  { ctx with cursor := ctx.cursor + skipCount (ctx.history.drop ctx.cursor) }

/-- `WorkflowContext._match_event`: the next event if its type matches. -/
def _match_event (ctx : Ctx) (expected_type : String) : Option Event :=
  match _peek ctx with
  | some e => if e.type = expected_type then some e else none
  | none => none

/-- `WorkflowContext.is_replaying`. -/
def is_replaying (ctx : Ctx) : Bool :=
  ctx.cursor < ctx.original_len

/-- `WorkflowContext.is_at_end_of_history`. -/
def is_at_end_of_history (ctx : Ctx) : Bool :=
  ctx.history.length ≤ ctx.cursor

/-- `WorkflowContext.last_emitted_event_type` (`history[-1]["type"]`; `none`
models the IndexError on an empty history, which never occurs live). -/
def last_emitted_event_type (ctx : Ctx) : Option String :=
  (ctx.history.getLast?).map (fun e => e.type)

/-- `WorkflowContext._append_event`: insert the event through the database
and mirror it into the in-memory history. -/
def _append_event (ctx : Ctx) (s : Store) (type : String) (payload : Payload) :
    Ctx × Store :=
  ({ ctx with history := ctx.history ++ [{ type := type, payload := payload }] },
   create_event s ctx.id type payload)

/-- `WorkflowContext.activity`: the activity decision point.  `activity_id`
and `now` stand for the UUID and CURRENT_TIMESTAMP of the scheduled task. -/
def ctxActivity (ctx : Ctx) (s : Store) (metadata : ActivityMetadata)
    (activity_id : String) (now : Nat) : Res Val :=
  let ctx := _skip_step_events ctx
  match _match_event ctx "ACTIVITY_SCHEDULED" with
  | some scheduled_event =>
    match lookupKey scheduled_event.payload "name" with
    | none => .exn "KeyError: name" ctx s
    | some (.str n) =>
      if n ≠ metadata.name then
        .nondet "activity name mismatch" ctx s
      else
        let ctx := _consume ctx
        let ctx := _skip_step_events ctx
        match _match_event ctx "ACTIVITY_COMPLETED" with
        | some completed_event =>
          let ctx := _consume ctx
          match lookupKey completed_event.payload "result" with
          | some r => .ok r ctx s
          | none => .exn "KeyError: result" ctx s
        | none => .stopReplay ctx s
    | some _ => .nondet "activity name mismatch" ctx s
  | none =>
    let ctx := _skip_step_events ctx
    match _peek ctx with
    | some _ => .nondet "unexpected event before activity" ctx s
    | none =>
      let s := create_activity s ctx.id metadata activity_id now
      .stopReplay ctx s

/-- `WorkflowContext.sleep`: the timer decision point (`fire_at` is the
already-computed wake-up time, `timer_id` the generated UUID). -/
def ctxSleep (ctx : Ctx) (s : Store) (fire_at : Nat) (timer_id : String) :
    Res Unit :=
  let ctx := _skip_step_events ctx
  match _match_event ctx "TIMER_SCHEDULED" with
  | some _ =>
    let ctx := _consume ctx
    let ctx := _skip_step_events ctx
    match _match_event ctx "TIMER_FIRED" with
    | some _ => .ok () (_consume ctx) s
    | none => .stopReplay ctx s
  | none =>
    let ctx := _skip_step_events ctx
    match _peek ctx with
    | some _ => .nondet "unexpected event before sleep" ctx s
    | none =>
      let s := create_timer s ctx.id fire_at timer_id
      .stopReplay ctx s

/-- `WorkflowContext.wait_until_signal`: on a matching SIGNAL_RECEIVED event
the source returns `event["payload"]["data"]` — a KeyError whenever the
payload has no "data" key. -/
def wait_until_signal (ctx : Ctx) (s : Store) (signal_name : String) : Res Val :=
  let ctx := _skip_step_events ctx
  match _match_event ctx "SIGNAL_RECEIVED" with
  | some event =>
    match lookupKey event.payload "name" with
    | none => .exn "KeyError: name" ctx s
    | some (.str n) =>
      if n ≠ signal_name then
        .nondet "signal name mismatch" ctx s
      else
        let ctx := _consume ctx
        match lookupKey event.payload "data" with
        | some v => .ok v ctx s
        | none => .exn "KeyError: data" ctx s
    | some _ => .nondet "signal name mismatch" ctx s
  | none =>
    let ctx := _skip_step_events ctx
    match _peek ctx with
    | some _ => .nondet "unexpected event before signal" ctx s
    | none => .stopReplay ctx s

/-- `StateProxy.set`: consume a matching STATE_SET from history, otherwise
emit a new one (into the batch, or appended followed by `StopReplay`).
There is no non-determinism check on a non-matching next event. -/
def state_set (ctx : Ctx) (s : Store) (name : String) (value : Val) : Res Unit :=
  let emit : Res Unit :=
    let payload : Payload := [("key", .str name), ("value", value)]
    match ctx.batch with
    | some b => .ok () { ctx with batch := some (b ++ [("STATE_SET", payload)]) } s
    | none =>
      let (ctx, s) := _append_event ctx s "STATE_SET" payload
      .stopReplay ctx s
  match _peek ctx with
  | some e =>
    if e.type = "STATE_SET" then
      match lookupKey e.payload "key" with
      | none => .exn "KeyError: key" ctx s
      | some (.str k) =>
        if k = name then
          let ctx := _consume ctx
          .ok () { ctx with state := setKey ctx.state name value } s
        else emit
      | some _ => emit
    else emit
  | none => emit

/-- Python-set equality of the key lists of an object payload and the
updater keyword arguments. -/
def keysSetEq (a b : List String) : Bool :=
  a.all (fun k => b.contains k) && b.all (fun k => a.contains k)

/-- `StateProxy.update`: updaters are keyword functions of the previous
value (`none` when the key is unset).  The replay branch consumes a
STATE_UPDATE whose `values` keys equal the updater keys and writes those
recorded values; otherwise the updaters run and a new event is emitted. -/
def state_update (ctx : Ctx) (s : Store)
    (updaters : List (String × (Option Val → Val))) : Res Unit :=
  let emit : Res Unit :=
    let new_values : Payload :=
      updaters.map (fun kf => (kf.1, kf.2 (lookupKey ctx.state kf.1)))
    let payload : Payload := [("values", .obj new_values)]
    match ctx.batch with
    | some b => .ok () { ctx with batch := some (b ++ [("STATE_UPDATE", payload)]) } s
    | none =>
      let (ctx, s) := _append_event ctx s "STATE_UPDATE" payload
      .stopReplay ctx s
  match _peek ctx with
  | some e =>
    if e.type = "STATE_UPDATE" then
      match lookupKey e.payload "values" with
      | none => .exn "KeyError: values" ctx s
      | some (.obj kvs) =>
        if keysSetEq (kvs.map Prod.fst) (updaters.map Prod.fst) then
          let ctx := _consume ctx
          .ok () { ctx with state := updateKeys ctx.state kvs } s
        else emit
      | some _ => .exn "AttributeError: keys" ctx s
    else emit
  | none => emit

/-! ### Replay engine (`src/loom/core/engine.py`) and runner
(`src/loom/core/runner.py`). -/

/-- A user step: its declared name, the method name recorded in the
STEP_START payload, and the step body as a function of context and store. -/
structure StepDef where
  name : String
  fnName : String
  fn : Ctx → Store → Res Unit

/-- The step loop of `Engine.replay_until_block` (its `for step in steps`
body): STEP_START matching — where a mismatching recorded step name raises
`StopReplay`, not a non-determinism error — then the step body, then
STEP_END matching. -/
def runSteps (steps : List StepDef) (ctx : Ctx) (s : Store) (nowS : String) :
    Res Unit :=
  match steps with
  | [] => .ok () ctx s
  | step :: rest =>
    let afterStart : Res Unit :=
      match _match_event ctx "STEP_START" with
      | some step_start_event =>
        match lookupKey step_start_event.payload "step_name" with
        | none => .exn "KeyError: step_name" ctx s
        | some (.str n) =>
          if n ≠ step.name then .stopReplay ctx s
          else .ok () (_consume ctx) s
        | some _ => .stopReplay ctx s
      | none =>
        if is_replaying ctx then .ok () ctx s
        else
          let (ctx, s) := _append_event ctx s "STEP_START"
            [("step_name", .str step.name), ("step_fn", .str step.fnName),
             ("started_at", .str nowS)]
          .ok () ctx s
    match afterStart with
    | .ok _ ctx s =>
      match step.fn ctx s with
      | .ok _ ctx s =>
        let afterEnd : Ctx × Store :=
          match _match_event ctx "STEP_END" with
          | some _ => (_consume ctx, s)
          | none =>
            if is_replaying ctx then (ctx, s)
            else _append_event ctx s "STEP_END"
              [("step_name", .str step.name), ("completed_at", .str nowS)]
        runSteps rest afterEnd.1 afterEnd.2 nowS
      | r => r
    | r => r

/-- `Engine.replay_until_block`.  The workflow class resolved through the
registry is supplied as its list of declared steps (`wfSteps`); `rotate_id`
and `now`/`nowS` stand for the generated UUID and current time.  On
`StopReplay` with an empty history, the source's `history[-1]` raises an
IndexError inside the handler that escapes the tick; this is the
`.error (.pyError ..)` branch, which the runner turns into a failed task
and failed workflow. -/
def replay_until_block (wfSteps : List StepDef) (s : Store) (workflow_id : String)
    (nowS : String) (rotate_id : String) (now : Nat) : Except DbErr Store :=
  match get_workflow_info s workflow_id with
  | .error e => .error e
  | .ok wdef =>
    let history := get_workflow_events s workflow_id
    let ctx : Ctx := { id := workflow_id, input := wdef.input, history := history,
                       cursor := 0, original_len := history.length,
                       state := [], batch := none }
    let ctx :=
      match _peek ctx with
      | some first_event =>
        if first_event.type = "WORKFLOW_STARTED" then _consume ctx else ctx
      | none => ctx
    match runSteps wfSteps ctx s nowS with
    | .ok _ _ s => complete_workflow s workflow_id nowS
    | .stopReplay ctx s =>
      match last_emitted_event_type ctx with
      | some ty =>
        if ty = "STATE_SET" ∨ ty = "STATE_UPDATE" then
          rotate_workflow_driver s workflow_id rotate_id now
        else .ok s
      | none => .error (.pyError "IndexError")
    | .nondet msg _ s => workflow_failed s workflow_id msg none none nowS
    | .exn msg _ s => workflow_failed s workflow_id msg none none nowS

/-- The activity registry: `(module, func)` to the activity behavior.  A
behavior takes the recorded arguments and the number of times the function
has been invoked so far (activities are side-effectful, so the outcome may
differ between invocations) and either returns a value or throws. -/
def Registry := String → String → Option (List Val → Nat → Except String Val)

/-- `Engine.replay_activity`.  Returns the store plus the updated invocation
counter of the activity function.  The except-branch mirrors the source:
on `attempts >= max_attempts` fail the task and append ACTIVITY_FAILED,
otherwise `schedule_retry` at `now + min(60, 2 ** attempts)`. -/
def replay_activity (reg : Registry) (task : Task) (s : Store) (ncalls : Nat)
    (recreate_id : String) (now : Nat) : Store × Nat :=
  let workflow_id := task.workflow_id
  let activity_name := task.target
  let handler : Store → String → Store := fun s e =>
    if task.max_attempts ≤ task.attempts then
      let s := task_failed s task.id e
      create_event s workflow_id "ACTIVITY_FAILED"
        [("name", .str activity_name), ("error", .str e)]
    else
      schedule_retry s task.id (now + min 60 (2 ^ task.attempts)) e
  match get_activity_event s workflow_id activity_name task.attempts with
  | none => (handler s "No event found for activity", ncalls)
  | some event =>
    match lookupKey event.payload "module", lookupKey event.payload "func",
          lookupKey event.payload "args" with
    | some (.str moduleName), some (.str funcName), some (.arr args) =>
      match reg moduleName funcName with
      | none => (handler s "activity function not found", ncalls)
      | some fnB =>
        match fnB args ncalls with
        | .error e => (handler s e, ncalls + 1)
        | .ok response =>
          let s := create_event s workflow_id "ACTIVITY_COMPLETED"
            [("name", .str activity_name), ("result", response)]
          let s := task_completed s task.id
          match recreate_workflow_task s workflow_id recreate_id now with
          | .ok s2 => (s2, ncalls + 1)
          | .error _ => (handler s "workflow not found", ncalls + 1)
    | _, _, _ => (handler s "invalid activity metadata", ncalls)

/-- The workflow registry seen by the runner: `(module, name)` to steps. -/
def WfRegistry := String → String → Option (List StepDef)

/-- `run_once` (`src/loom/core/runner.py`): claim a task, short-circuit if
the workflow already has a WORKFLOW_COMPLETED event, then dispatch by kind;
`fresh_id` stands for the UUID a rotation/recreation would generate.  A
workflow registry miss raises out of `Engine.replay_until_block` (the
lookup sits before its try block), so like any error escaping the tick it
lands in the runner's except clause: the task and the workflow are marked
failed. -/
def run_once (wreg : WfRegistry) (reg : Registry) (s : Store) (ncalls : Nat)
    (now : Nat) (nowS : String) (fresh_id : String) : Store × Nat :=
  match claim_task s now with
  | (none, s) => (s, ncalls)
  | (some task, s) =>
    let workflow_id := task.workflow_id
    if workflow_is_completed s workflow_id then
      (task_completed s task.id, ncalls)
    else if task.kind = "STEP" then
      match (match get_workflow_info s workflow_id with
             | .ok w => wreg w.module w.name
             | .error _ => none) with
      | none =>
        let s := task_failed s task.id "workflow not registered"
        match workflow_failed s workflow_id "workflow not registered"
            (some task.id) (some task.kind) nowS with
        | .ok s => (s, ncalls)
        | .error _ => (s, ncalls)
      | some stepsOf =>
        match replay_until_block stepsOf s workflow_id nowS fresh_id now with
        | .ok s => (task_completed s task.id, ncalls)
        | .error e =>
          let s := task_failed s task.id e.message
          match workflow_failed s workflow_id e.message
              (some task.id) (some task.kind) nowS with
          | .ok s => (s, ncalls)
          | .error _ => (s, ncalls)
    else if task.kind = "ACTIVITY" then
      let (s, ncalls) := replay_activity reg task s ncalls fresh_id now
      (task_completed s task.id, ncalls)
    else if task.kind = "TIMER" then
      if now < task.run_at then (release_task s task.id, ncalls)
      else
        let s := create_event s workflow_id "TIMER_FIRED" []
        match rotate_workflow_driver s workflow_id fresh_id now with
        | .ok s => (task_completed s task.id, ncalls)
        | .error _ => (s, ncalls)
    else (task_completed s task.id, ncalls)

/-! ### Workflow handle (`src/loom/core/handle.py`). -/

/-- `WorkflowHandle._replay_state`: fold STATE_SET/STATE_UPDATE events over
an empty map.  The STATE_UPDATE branch executes `state_dict.update(payload)`
on the raw payload — including its "values" wrapper key. -/
def _replay_state (events : List Event) : Payload :=
  events.foldl (fun state_dict e =>
    if e.type = "STATE_SET" then
      match lookupKey e.payload "key", lookupKey e.payload "value" with
      | some (.str k), some v => setKey state_dict k v
      | _, _ => state_dict
    else if e.type = "STATE_UPDATE" then
      updateKeys state_dict e.payload
    else state_dict) []

/-- The normalized error record built by `WorkflowHandle._extract_error`. -/
structure ExtractedError where
  source : String
  message : Val
  step : Option Val
  activity : Option Val
  details : Payload

/-- `WorkflowHandle._extract_error`: prefer the last WORKFLOW_FAILED
payload, else the last ACTIVITY_FAILED, else a generic fallback. -/
def _extract_error (events : List Event) : ExtractedError :=
  let acc := events.foldl (fun (acc : Option Payload × Option Payload) e =>
    if e.type = "WORKFLOW_FAILED" then (some e.payload, acc.2)
    else if e.type = "ACTIVITY_FAILED" then (acc.1, some e.payload)
    else acc) (none, none)
  match acc.1 with
  | some p =>
    { source := "WORKFLOW", message := (lookupKey p "error").getD (.str "Workflow failed"),
      step := lookupKey p "step", activity := none, details := p }
  | none =>
    match acc.2 with
    | some p =>
      { source := "ACTIVITY", message := (lookupKey p "error").getD (.str "Activity failed"),
        step := none, activity := lookupKey p "activity", details := p }
    | none =>
      { source := "WORKFLOW", message := .str "Workflow failed for unknown reasons",
        step := none, activity := none, details := [] }

/-- Errors surfaced by `WorkflowHandle.result`. -/
inductive ResultErr where
  | stillRunning : ResultErr
  | executionError : ExtractedError → ResultErr
  | cancelled : ResultErr
  | dbErr : DbErr → ResultErr

/-- `WorkflowHandle.result`: status first; "RUNNING" raises still-running,
"FAILED" raises the extracted error, "CANCELED" raises the cancellation
error — any other status returns the replayed state map. -/
def handleResult (s : Store) (workflow_id : String) : Except ResultErr Payload :=
  match get_workflow_status s workflow_id with
  | .error e => .error (.dbErr e)
  | .ok status =>
    if status = "RUNNING" then .error .stillRunning
    else
      let events := get_workflow_events s workflow_id
      let state := _replay_state events
      if status = "FAILED" then .error (.executionError (_extract_error events))
      else if status = "CANCELED" then .error .cancelled
      else .ok state

/-- `WorkflowHandle.signal`: reject an empty name, then
`create_signal_event` (which itself requires the workflow to be RUNNING). -/
def handleSignal (s : Store) (workflow_id : String) (name : String)
    (payload : Payload) (sent_at : String) : Except (Option DbErr) Store :=
  if name = "" then .error none
  else
    match create_signal_event s workflow_id name payload sent_at with
    | .ok s => .ok s
    | .error e => .error (some e)

/-! ### State replay through the proxy, for comparison with
`WorkflowHandle._replay_state` (claim C4). -/

/-- The effect on the in-memory state of the `StateProxy` replay branches
when they consume one event: `StateProxy.set` writes the recorded key/value
pair of a matching STATE_SET, and `StateProxy.update` writes every pair of
the recorded `values` object of a matching STATE_UPDATE (`self._data[key] =
value` over `payload["values"].items()`). -/
def proxyConsume (state : Payload) (e : Event) : Payload :=
  if e.type = "STATE_SET" then
    match lookupKey e.payload "key", lookupKey e.payload "value" with
    | some (.str k), some v => setKey state k v
    | _, _ => state
  else if e.type = "STATE_UPDATE" then
    match lookupKey e.payload "values" with
    | some (.obj kvs) => updateKeys state kvs
    | _ => state
  else state

/-- The state map produced when the workflow is replayed against a history
and the proxy consumes its STATE_SET/STATE_UPDATE events in id order. -/
def proxyReplayState (events : List Event) : Payload :=
  events.foldl proxyConsume []

/-! ### The store transition system for the driver-uniqueness claim (C9).

Each constructor of `Op` is one atomic core operation as executed by the
code: workflow creation (`create_workflow`), a claim (`claim_task`), the
store suffix of a replay tick on the claimed STEP task (the decision-point
writes of `WorkflowContext` composed with the runner's `task_completed`),
activity completion (`Engine.replay_activity`), timer firing and the
terminal markings.  Paths whose intermediate writes happen inside one code
block are fused into one operation; the generated UUIDs are modelled as
fresh identifiers. -/

/-- A task counts against the per-workflow driver budget when it is
PENDING or RUNNING. -/
def activeTask (workflow_id : String) (t : Task) : Bool :=
  t.workflow_id = workflow_id && (t.status = "PENDING" || t.status = "RUNNING")

/-- Number of PENDING/RUNNING tasks (of any kind) of one workflow. -/
def activeCount (s : Store) (workflow_id : String) : Nat :=
  s.tasks.countP (activeTask workflow_id)

/-- Number of PENDING/RUNNING STEP tasks of one workflow — the quantity
bounded by the driver-uniqueness invariant. -/
def stepDriverCount (s : Store) (workflow_id : String) : Nat :=
  s.tasks.countP (fun t => t.workflow_id = workflow_id && t.kind = "STEP" &&
    (t.status = "PENDING" || t.status = "RUNNING"))

/-- A task id not yet present (uuid4 freshness). -/
def freshTaskId (s : Store) (id : String) : Prop :=
  ∀ t ∈ s.tasks, t.id ≠ id

/-- A workflow id not yet present anywhere (uuid4 freshness). -/
def freshWorkflowId (s : Store) (id : String) : Prop :=
  (∀ w ∈ s.workflows, w.id ≠ id) ∧ ∀ t ∈ s.tasks, t.workflow_id ≠ id

/-- One atomic core operation on the store. -/
inductive Op : Store → Store → Prop where
  /-- `create_workflow` for a fresh workflow, as issued by
  `CompiledWorkflow.start` (status "RUNNING"). -/
  | createWorkflow (s : Store) (wf : WorkflowInput) (input : Val)
      (wid tid : String) (now : Nat)
      (hst : wf.status = "RUNNING")
      (hw : freshWorkflowId s wid) (ht : freshTaskId s tid) :
      Op s (create_workflow s wf input wid tid now)
  /-- `claim_task`. -/
  | claim (s : Store) (now : Nat) :
      Op s (claim_task s now).2
  /-- Any plain event insert (`create_event`, also on behalf of
  `create_signal_event` and the context's `_append_event`). -/
  | appendEvent (s : Store) (wid ty : String) (p : Payload) :
      Op s (create_event s wid ty p)
  /-- `task_completed` (the runner calls it after every dispatched task). -/
  | completeTask (s : Store) (tid : String) :
      Op s (task_completed s tid)
  /-- `task_failed`. -/
  | failTask (s : Store) (tid err : String) :
      Op s (task_failed s tid err)
  /-- `release_task` (timer not yet due). -/
  | releaseTask (s : Store) (tid : String) :
      Op s (release_task s tid)
  /-- A replay tick on the claimed STEP driver suspends on a new activity:
  `create_activity` inside `WorkflowContext.activity`, then the runner's
  `task_completed` on the driver. -/
  | stepSuspendActivity (s : Store) (t : Task) (meta : ActivityMetadata)
      (aid : String) (now : Nat)
      (ht : t ∈ s.tasks) (hk : t.kind = "STEP") (hr : t.status = "RUNNING")
      (ha : freshTaskId s aid) :
      Op s (task_completed (create_activity s t.workflow_id meta aid now) t.id)
  /-- A replay tick suspends on a new timer: `create_timer` inside
  `WorkflowContext.sleep`, then the runner's `task_completed`. -/
  | stepSuspendTimer (s : Store) (t : Task) (fire_at : Nat) (mid : String)
      (ht : t ∈ s.tasks) (hk : t.kind = "STEP") (hr : t.status = "RUNNING")
      (hm : freshTaskId s mid) :
      Op s (task_completed (create_timer s t.workflow_id fire_at mid) t.id)
  /-- A replay tick that suspended on a fresh state write rotates the
  driver (`Engine.replay_until_block`, StopReplay branch). -/
  | stepRotate (s s2 : Store) (t : Task) (rid : String) (now : Nat)
      (ht : t ∈ s.tasks) (hk : t.kind = "STEP") (hr : t.status = "RUNNING")
      (hf : freshTaskId s rid)
      (hrot : rotate_workflow_driver s t.workflow_id rid now = .ok s2) :
      Op s s2
  /-- `Engine.replay_activity`, success path: ACTIVITY_COMPLETED event,
  `task_completed`, `recreate_workflow_task`, then the runner's final
  `task_completed`. -/
  | activitySuccess (s s2 : Store) (t : Task) (p : Payload) (rid : String)
      (now : Nat)
      (ht : t ∈ s.tasks) (hk : t.kind = "ACTIVITY") (hr : t.status = "RUNNING")
      (hf : freshTaskId s rid)
      (hrec : recreate_workflow_task
        (task_completed (create_event s t.workflow_id "ACTIVITY_COMPLETED" p) t.id)
        t.workflow_id rid now = .ok s2) :
      Op s (task_completed s2 t.id)
  /-- `Engine.replay_activity`, retry path: `schedule_retry` on the claimed
  (hence RUNNING) ACTIVITY task. -/
  | activityRetry (s : Store) (t : Task) (run_at : Nat) (err : String)
      (ht : t ∈ s.tasks) (hk : t.kind = "ACTIVITY") (hr : t.status = "RUNNING") :
      Op s (schedule_retry s t.id run_at err)
  /-- `Engine.replay_activity`, retries exhausted: `task_failed` then the
  ACTIVITY_FAILED event. -/
  | activityPermanentFailure (s : Store) (t : Task) (p : Payload) (err : String)
      (ht : t ∈ s.tasks) (hk : t.kind = "ACTIVITY") (hr : t.status = "RUNNING") :
      Op s (create_event (task_failed s t.id err) t.workflow_id "ACTIVITY_FAILED" p)
  /-- The runner's TIMER branch when due: TIMER_FIRED event,
  `rotate_workflow_driver`, `task_completed` on the timer task. -/
  | timerFire (s s2 : Store) (t : Task) (rid : String) (now : Nat)
      (ht : t ∈ s.tasks) (hk : t.kind = "TIMER") (hr : t.status = "RUNNING")
      (hf : freshTaskId s rid)
      (hrot : rotate_workflow_driver (create_event s t.workflow_id "TIMER_FIRED" [])
        t.workflow_id rid now = .ok s2) :
      Op s (task_completed s2 t.id)
  /-- `workflow_failed` (terminal marking). -/
  | markFailed (s s2 : Store) (wid err : String) (tid tk : Option String)
      (nowS : String)
      (h : workflow_failed s wid err tid tk nowS = .ok s2) :
      Op s s2
  /-- `complete_workflow` (terminal marking). -/
  | markCompleted (s s2 : Store) (wid nowS : String)
      (h : complete_workflow s wid nowS = .ok s2) :
      Op s s2
  /-- `cancel_workflow` (terminal marking). -/
  | markCancelled (s s2 : Store) (wid : String) (reason : Option String)
      (nowS : String)
      (h : cancel_workflow s wid reason nowS = .ok s2) :
      Op s s2

/-- Stores reachable from the empty store by core operations. -/
inductive Reachable : Store → Prop where
  | init : Reachable ⟨[], [], []⟩
  | next (s s2 : Store) (hs : Reachable s) (hop : Op s s2) : Reachable s2

/-- Task ids are pairwise distinct. -/
def UniqueTaskIds (s : Store) : Prop :=
  (s.tasks.map Task.id).Nodup

/-- The inductive invariant: unique task ids, and per workflow at most one
PENDING/RUNNING task of any kind. -/
def Inv (s : Store) : Prop :=
  UniqueTaskIds s ∧ ∀ wid, activeCount s wid ≤ 1

/-! ### Helper lemmas for the driver-uniqueness invariant. -/

/-- A task update that keeps the id and workflow and never turns an
inactive task active. -/
def Deact (f : Task → Task) : Prop :=
  (∀ t, (f t).id = t.id) ∧ (∀ t, (f t).workflow_id = t.workflow_id) ∧
  (∀ wid t, activeTask wid (f t) = true → activeTask wid t = true)

lemma deact_countP_le {f : Task → Task} (hf : Deact f) (l : List Task)
    (wid : String) :
    (l.map f).countP (activeTask wid) ≤ l.countP (activeTask wid) := by
  rw [List.countP_map]
  exact List.countP_mono_left (fun a _ h => hf.2.2 wid a h)

lemma deact_countP_zero {f : Task → Task} (hf : Deact f) (l : List Task)
    (wid : String) (h : l.countP (activeTask wid) = 0) :
    (l.map f).countP (activeTask wid) = 0 := by
  have := deact_countP_le hf l wid
  omega

lemma deact_map_ids {f : Task → Task} (hf : Deact f) (l : List Task) :
    (l.map f).map Task.id = l.map Task.id := by
  rw [List.map_map]
  exact List.map_congr_left (fun a _ => hf.1 a)

/-- Decompose a list around a unique active element: everything else is
inactive when the active count is at most one. -/
lemma exists_decomp_of_count_le_one (l : List Task) (t : Task) (wid : String)
    (hmem : t ∈ l) (hact : activeTask wid t = true)
    (hle : l.countP (activeTask wid) ≤ 1) :
    ∃ l₁ l₂, l = l₁ ++ t :: l₂ ∧ l₁.countP (activeTask wid) = 0 ∧
      l₂.countP (activeTask wid) = 0 := by
  obtain ⟨l₁, l₂, rfl⟩ := List.append_of_mem hmem
  refine ⟨l₁, l₂, rfl, ?_, ?_⟩ <;>
  · have h1 := List.countP_append (activeTask wid) l₁ (t :: l₂)
    have h2 := List.countP_cons (activeTask wid) t l₂
    rw [hact] at h2
    simp only [if_true] at h2
    omega

lemma decomp_ids (l₁ l₂ : List Task) (t : Task)
    (h : (((l₁ ++ t :: l₂)).map Task.id).Nodup) :
    (∀ x ∈ l₁, x.id ≠ t.id) ∧ (∀ x ∈ l₂, x.id ≠ t.id) := by
  rw [List.map_append, List.map_cons, List.nodup_middle, List.nodup_cons] at h
  constructor <;> intro x hx he
  · exact h.1 (by rw [← he]; exact List.mem_append_left _ (List.mem_map_of_mem _ hx))
  · exact h.1 (by rw [← he]; exact List.mem_append_right _ (List.mem_map_of_mem _ hx))

lemma map_eq_of_fixed_outside (l₁ l₂ : List Task) (t : Task) (f : Task → Task)
    (h₁ : ∀ x ∈ l₁, f x = x) (h₂ : ∀ x ∈ l₂, f x = x) :
    (l₁ ++ t :: l₂).map f = l₁ ++ f t :: l₂ := by
  rw [List.map_append, List.map_cons]
  rw [show l₁.map f = l₁ from (List.map_congr_left h₁).trans (List.map_id l₁),
      show l₂.map f = l₂ from (List.map_congr_left h₂).trans (List.map_id l₂)]

/-- The update of `task_completed`. -/
def complFn (task_id : String) : Task → Task := fun t =>
  if t.id = task_id ∧ t.status = "RUNNING" then { t with status := "COMPLETED" }
  else t

lemma task_completed_tasks (s : Store) (tid : String) :
    (task_completed s tid).tasks = s.tasks.map (complFn tid) := rfl

lemma complFn_deact (tid : String) : Deact (complFn tid) := by
  refine ⟨?_, ?_, ?_⟩ <;> intro
  · unfold complFn; split <;> rfl
  · unfold complFn; split <;> rfl
  · intro t h
    unfold complFn at h
    split at h
    · simp [activeTask] at h
    · exact h

/-- The update of `task_failed`. -/
def failFn (task_id err : String) : Task → Task := fun t =>
  if t.id = task_id ∧ t.status = "RUNNING" then
    { t with status := "FAILED", last_error := some err }
  else t

lemma task_failed_tasks (s : Store) (tid err : String) :
    (task_failed s tid err).tasks = s.tasks.map (failFn tid err) := rfl

lemma failFn_deact (tid err : String) : Deact (failFn tid err) := by
  refine ⟨?_, ?_, ?_⟩ <;> intro
  · unfold failFn; split <;> rfl
  · unfold failFn; split <;> rfl
  · intro t h
    unfold failFn at h
    split at h
    · simp [activeTask] at h
    · exact h

/-- The update of `release_task`. -/
def releaseFn (task_id : String) : Task → Task := fun t =>
  if t.id = task_id ∧ t.status = "RUNNING" then { t with status := "PENDING" }
  else t

lemma release_task_tasks (s : Store) (tid : String) :
    (release_task s tid).tasks = s.tasks.map (releaseFn tid) := rfl

lemma releaseFn_deact (tid : String) : Deact (releaseFn tid) := by
  refine ⟨?_, ?_, ?_⟩ <;> intro
  · unfold releaseFn; split <;> rfl
  · unfold releaseFn; split <;> rfl
  · intro t h
    unfold releaseFn at h
    split at h
    · next hc => simp [activeTask, hc.2] at h ⊢; exact h
    · exact h

/-- The update of `failPendingTasks`. -/
def failPendingFn (workflow_id err : String) : Task → Task := fun t =>
  if t.workflow_id = workflow_id ∧ t.status = "PENDING" then
    { t with status := "FAILED", last_error := some err }
  else t

lemma failPendingTasks_eq (l : List Task) (wid err : String) :
    failPendingTasks l wid err = l.map (failPendingFn wid err) := rfl

lemma failPendingFn_deact (wid err : String) : Deact (failPendingFn wid err) := by
  refine ⟨?_, ?_, ?_⟩ <;> intro
  · unfold failPendingFn; split <;> rfl
  · unfold failPendingFn; split <;> rfl
  · intro t h
    unfold failPendingFn at h
    split at h
    · simp [activeTask] at h
    · exact h

/-- The update of `complete_workflow` on running STEP tasks. -/
def completeStepsFn (workflow_id : String) : Task → Task := fun t =>
  if t.workflow_id = workflow_id ∧ t.kind = "STEP" ∧ t.status = "RUNNING" then
    { t with status := "COMPLETED" }
  else t

lemma completeStepsFn_deact (wid : String) : Deact (completeStepsFn wid) := by
  refine ⟨?_, ?_, ?_⟩ <;> intro
  · unfold completeStepsFn; split <;> rfl
  · unfold completeStepsFn; split <;> rfl
  · intro t h
    unfold completeStepsFn at h
    split at h
    · simp [activeTask] at h
    · exact h

/-- The update of `schedule_retry` (no status guard). -/
def retryFn (task_id : String) (run_at : Nat) (err : String) : Task → Task := fun t =>
  if t.id = task_id then
    { t with status := "PENDING", run_at := run_at, last_error := some err }
  else t

lemma schedule_retry_tasks (s : Store) (tid : String) (run_at : Nat) (err : String) :
    (schedule_retry s tid run_at err).tasks = s.tasks.map (retryFn tid run_at err) := rfl

/-- The update of `claim_task` on the selected id. -/
def claimFn (task_id : String) : Task → Task := fun t =>
  if t.id = task_id then { t with status := "RUNNING", attempts := t.attempts + 1 }
  else t

/-- `pickClaim` only returns a PENDING member of the list. -/
lemma pickClaim_sound (now : Nat) (l : List Task) :
    ∀ acc t, (l.foldl (fun acc t =>
      if eligible now t then
        match acc with
        | none => some t
        | some b => if t.run_at < b.run_at then some t else some b
      else acc) acc) = some t →
      acc = some t ∨ (t ∈ l ∧ t.status = "PENDING") := by
  induction l with
  | nil => intro acc t h; exact .inl h
  | cons u rest ih =>
    intro acc t h
    simp only [List.foldl_cons] at h
    rcases ih _ t h with h1 | h1
    · cases he : eligible now u with
      | false => simp only [he, Bool.false_eq_true, if_false] at h1; exact .inl h1
      | true =>
        have hp : u.status = "PENDING" ∧ u.run_at ≤ now := by
          simpa [eligible] using he
        rcases acc with _ | b
        · simp only [he, if_true] at h1
          have hut : u = t := by simpa using h1
          subst hut
          exact .inr ⟨List.mem_cons_self _ _, hp.1⟩
        · simp only [he, if_true] at h1
          by_cases hlt : u.run_at < b.run_at
          · rw [if_pos hlt] at h1
            have hut : u = t := by simpa using h1
            subst hut
            exact .inr ⟨List.mem_cons_self _ _, hp.1⟩
          · rw [if_neg hlt] at h1
            exact .inl h1
    · exact .inr ⟨List.mem_cons_of_mem _ h1.1, h1.2⟩

lemma Deact.comp {f g : Task → Task} (hf : Deact f) (hg : Deact g) :
    Deact (f ∘ g) := by
  refine ⟨fun t => ?_, fun t => ?_, fun wid t h => ?_⟩
  · rw [Function.comp_apply, hf.1, hg.1]
  · rw [Function.comp_apply, hf.2.1, hg.2.1]
  · exact hg.2.2 wid t (hf.2.2 wid (g t) h)

lemma nodup_append_fresh (l : List Task) (x : Task)
    (h : (l.map Task.id).Nodup) (hx : ∀ t ∈ l, t.id ≠ x.id) :
    ((l ++ [x]).map Task.id).Nodup := by
  rw [List.map_append, List.map_singleton]
  refine List.Nodup.append h (List.nodup_singleton _) ?_
  intro a ha hb
  obtain ⟨t, ht, rfl⟩ := List.mem_map.mp ha
  simp at hb
  exact hx t ht hb

lemma countP_map_single_eq (l : List Task) (t : Task) (f : Task → Task)
    (p : Task → Bool) (hids : (l.map Task.id).Nodup) (hmem : t ∈ l)
    (hfix : ∀ x, x.id ≠ t.id → f x = x) (hp : p (f t) = p t) :
    (l.map f).countP p = l.countP p := by
  obtain ⟨l₁, l₂, rfl⟩ := List.append_of_mem hmem
  have hids2 := decomp_ids l₁ l₂ t hids
  rw [map_eq_of_fixed_outside l₁ l₂ t f (fun x hx => hfix x (hids2.1 x hx))
    (fun x hx => hfix x (hids2.2 x hx))]
  simp [List.countP_append, List.countP_cons, hp]

/-- Core counting argument for the "trade" operations: deactivate the unique
active task of a workflow and insert one fresh task of that workflow. -/
lemma trade_count (l : List Task) (t : Task) (f : Task → Task) (x : Task)
    (hmem : t ∈ l) (hact : activeTask t.workflow_id t = true)
    (hcnt : ∀ w, l.countP (activeTask w) ≤ 1)
    (hf : Deact f) (hkill : activeTask t.workflow_id (f t) = false)
    (hxw : x.workflow_id = t.workflow_id) (wid : String) :
    (l.map f ++ [x]).countP (activeTask wid) ≤ 1 := by
  rw [List.countP_append]
  by_cases hw : wid = t.workflow_id
  · subst hw
    obtain ⟨l₁, l₂, hdec, hz1, hz2⟩ :=
      exists_decomp_of_count_le_one l t _ hmem hact (hcnt _)
    rw [hdec, List.map_append, List.map_cons, List.countP_append, List.countP_cons]
    rw [deact_countP_zero hf l₁ _ hz1, deact_countP_zero hf l₂ _ hz2, hkill]
    simp [List.countP_cons]
    split <;> omega
  · have hw2 : t.workflow_id ≠ wid := fun hh => hw hh.symm
    have hxz : activeTask wid x = false := by
      simp [activeTask, hxw, hw2]
    have h1 := deact_countP_le hf l wid
    have h2 := hcnt wid
    have hxz0 : List.countP (activeTask wid) [x] = 0 := by
      simp [List.countP_cons, hxz]
    rw [hxz0]
    omega

/-- Shape of a successful `claim_task`. -/
lemma claim_task_shape (s : Store) (now : Nat) :
    (claim_task s now).2 = s ∨
    ∃ t, t ∈ s.tasks ∧ t.status = "PENDING" ∧
      (claim_task s now).2.tasks = s.tasks.map (claimFn t.id) ∧
      (claim_task s now).2.workflows = s.workflows ∧
      (claim_task s now).2.events = s.events := by
  unfold claim_task
  cases hp : pickClaim now s.tasks with
  | none => left; rfl
  | some t =>
    right
    have hs := pickClaim_sound now s.tasks none t (by unfold pickClaim at hp; exact hp)
    rcases hs with h | h
    · exact absurd h (by simp)
    · exact ⟨t, h.1, h.2, rfl, rfl, rfl⟩

/-- Shape of a successful `workflow_failed`. -/
lemma workflow_failed_ok (s s2 : Store) (wid err : String) (tid tk : Option String)
    (nowS : String) (h : workflow_failed s wid err tid tk nowS = .ok s2) :
    s2.tasks = s.tasks ∨
      s2.tasks = s.tasks.map (failPendingFn wid "workflow failed") := by
  unfold workflow_failed at h
  cases hf : get_workflow_info s wid with
  | error e => simp [hf] at h
  | ok w =>
    simp only [hf] at h
    by_cases hterm : terminalCheck w.status
    · rw [if_pos hterm] at h
      left
      cases h
      rfl
    · rw [if_neg hterm] at h
      right
      cases h
      rfl

/-- Shape of a successful `complete_workflow`. -/
lemma complete_workflow_ok (s s2 : Store) (wid nowS : String)
    (h : complete_workflow s wid nowS = .ok s2) :
    s2.tasks = s.tasks ∨ s2.tasks = s.tasks.map (completeStepsFn wid) := by
  unfold complete_workflow at h
  cases hf : get_workflow_info s wid with
  | error e => simp [hf] at h
  | ok w =>
    simp only [hf] at h
    by_cases hterm : terminalCheck w.status
    · rw [if_pos hterm] at h; left; cases h; rfl
    · rw [if_neg hterm] at h; right; cases h; rfl

/-- Shape of a successful `cancel_workflow`. -/
lemma cancel_workflow_ok (s s2 : Store) (wid : String) (reason : Option String)
    (nowS : String) (h : cancel_workflow s wid reason nowS = .ok s2) :
    s2.tasks = s.tasks ∨
      s2.tasks = s.tasks.map (failPendingFn wid "workflow cancelled") := by
  unfold cancel_workflow at h
  cases hf : get_workflow_info s wid with
  | error e => simp [hf] at h
  | ok w =>
    simp only [hf] at h
    by_cases hterm : terminalCheck w.status
    · rw [if_pos hterm] at h; left; cases h; rfl
    · rw [if_neg hterm] at h; right; cases h; rfl

/-- Shape of a successful `recreate_workflow_task`. -/
lemma recreate_ok (s s2 : Store) (wid rid : String) (now : Nat)
    (h : recreate_workflow_task s wid rid now = .ok s2) :
    ∃ x : Task, s2.tasks = s.tasks ++ [x] ∧ x.id = rid ∧ x.workflow_id = wid ∧
      x.status = "PENDING" ∧ x.kind = "STEP" := by
  unfold recreate_workflow_task at h
  cases hf : get_workflow_info s wid with
  | error e => simp [hf] at h
  | ok w =>
    simp only [hf] at h
    cases h
    exact ⟨_, rfl, rfl, rfl, rfl, rfl⟩

/-- Shape of a successful `rotate_workflow_driver`. -/
lemma rotate_ok (s s2 : Store) (wid rid : String) (now : Nat)
    (h : rotate_workflow_driver s wid rid now = .ok s2) :
    ∃ x : Task, s2.tasks = s.tasks.map (completeStepsFn wid) ++ [x] ∧
      x.id = rid ∧ x.workflow_id = wid ∧ x.status = "PENDING" ∧ x.kind = "STEP" := by
  unfold rotate_workflow_driver at h
  cases hf : get_workflow_info s wid with
  | error e => simp [hf] at h
  | ok w =>
    simp only [hf] at h
    cases h
    exact ⟨_, rfl, rfl, rfl, rfl, rfl⟩

lemma append_fresh_count (l : List Task) (x : Task) (wid2 : String)
    (hcnt : l.countP (activeTask wid2) ≤ 1)
    (hz : ∀ t ∈ l, t.workflow_id ≠ x.workflow_id) :
    (l ++ [x]).countP (activeTask wid2) ≤ 1 := by
  rw [List.countP_append]
  by_cases hw2 : wid2 = x.workflow_id
  · subst hw2
    have h0 : l.countP (activeTask x.workflow_id) = 0 := by
      rw [List.countP_eq_zero]
      intro t htm
      simp [activeTask, hz t htm]
    rw [h0]
    simp [List.countP_cons]
    split <;> omega
  · have hxz : activeTask wid2 x = false := by
      have hne : x.workflow_id ≠ wid2 := fun hh => hw2 hh.symm
      simp [activeTask, hne]
    have h0 : List.countP (activeTask wid2) [x] = 0 := by
      simp [List.countP_cons, hxz]
    rw [h0]
    omega

lemma inv_tasks_eq {s s2 : Store} (hinv : Inv s) (h2 : s2.tasks = s.tasks) :
    Inv s2 := by
  obtain ⟨hids, hcnt⟩ := hinv
  exact ⟨by unfold UniqueTaskIds; rw [h2]; exact hids,
         fun w => by unfold activeCount; rw [h2]; exact hcnt w⟩

lemma inv_tasks_map {s s2 : Store} (hinv : Inv s) {f : Task → Task}
    (hf : Deact f) (h2 : s2.tasks = s.tasks.map f) : Inv s2 := by
  obtain ⟨hids, hcnt⟩ := hinv
  constructor
  · unfold UniqueTaskIds
    rw [h2, deact_map_ids hf]
    exact hids
  · intro w
    unfold activeCount
    rw [h2]
    exact le_trans (deact_countP_le hf _ _) (hcnt w)

lemma inv_single_update {s s2 : Store} (hinv : Inv s) {t : Task}
    {f : Task → Task} (hmem : t ∈ s.tasks)
    (hfix : ∀ x, x.id ≠ t.id → f x = x) (hidk : ∀ u, (f u).id = u.id)
    (hp : ∀ w, activeTask w (f t) = activeTask w t)
    (h2 : s2.tasks = s.tasks.map f) : Inv s2 := by
  obtain ⟨hids, hcnt⟩ := hinv
  constructor
  · unfold UniqueTaskIds
    rw [h2, List.map_map]
    rw [show (Task.id ∘ f) = Task.id from funext hidk]
    exact hids
  · intro w
    unfold activeCount
    rw [h2, countP_map_single_eq s.tasks t f _ hids hmem hfix (hp w)]
    exact hcnt w

lemma inv_trade {s s2 : Store} (hinv : Inv s) {t : Task} {f : Task → Task}
    {x : Task} (hmem : t ∈ s.tasks) (hact : activeTask t.workflow_id t = true)
    (hf : Deact f) (hkill : activeTask t.workflow_id (f t) = false)
    (hxw : x.workflow_id = t.workflow_id)
    (hxfresh : ∀ u ∈ s.tasks, u.id ≠ x.id)
    (h2 : s2.tasks = s.tasks.map f ++ [x]) : Inv s2 := by
  obtain ⟨hids, hcnt⟩ := hinv
  constructor
  · unfold UniqueTaskIds
    rw [h2]
    apply nodup_append_fresh _ _ (by rw [deact_map_ids hf]; exact hids)
    intro u hu
    obtain ⟨v, hv, rfl⟩ := List.mem_map.mp hu
    rw [hf.1]
    exact hxfresh v hv
  · intro w
    unfold activeCount
    rw [h2]
    exact trade_count s.tasks t f x hmem hact (fun w2 => hcnt w2) hf hkill hxw w

/-- Every core operation preserves the invariant. -/
theorem inv_op {s s2 : Store} (hop : Op s s2) (hinv : Inv s) : Inv s2 := by
  cases hop with
  | createWorkflow wf input wid tid now hst hw ht =>
    obtain ⟨hids, hcnt⟩ := hinv
    constructor
    · exact nodup_append_fresh s.tasks _ hids (fun t htm => ht t htm)
    · intro wid2
      exact append_fresh_count s.tasks _ wid2 (hcnt wid2) (fun t htm => hw.2 t htm)
  | claim now =>
    rcases claim_task_shape s now with h | ⟨t, hmem, hpend, h2, _, _⟩
    · rw [h]; exact hinv
    · refine inv_single_update hinv hmem (fun x hx => ?_) (fun u => ?_) (fun w => ?_) h2
      · simp [claimFn, hx]
      · unfold claimFn; split <;> rfl
      · simp [claimFn, activeTask, hpend]
  | appendEvent wid ty p => exact inv_tasks_eq hinv rfl
  | completeTask tid => exact inv_tasks_map hinv (complFn_deact tid) rfl
  | failTask tid err => exact inv_tasks_map hinv (failFn_deact tid err) rfl
  | releaseTask tid => exact inv_tasks_map hinv (releaseFn_deact tid) rfl
  | stepSuspendActivity t meta aid now ht hk hr ha =>
    refine inv_trade
      (x := ⟨aid, t.workflow_id, "ACTIVITY", meta.name, now, "PENDING", 0,
        meta.retry_count, none⟩)
      hinv ht (by simp [activeTask, hr]) (complFn_deact t.id)
      (by simp [complFn, hr, activeTask]) rfl (fun u hu => ha u hu) ?_
    show ((s.tasks ++ [_]).map (complFn t.id)) = _
    rw [List.map_append, List.map_singleton]
    congr 1
    simp [complFn]
  | stepSuspendTimer t fire_at mid ht hk hr hm =>
    refine inv_trade
      (x := ⟨mid, t.workflow_id, "TIMER", "__timer__", fire_at, "PENDING", 0, 1, none⟩)
      hinv ht (by simp [activeTask, hr]) (complFn_deact t.id)
      (by simp [complFn, hr, activeTask]) rfl (fun u hu => hm u hu) ?_
    show ((s.tasks ++ [_]).map (complFn t.id)) = _
    rw [List.map_append, List.map_singleton]
    congr 1
    simp [complFn]
  | stepRotate s2 t rid now ht hk hr hf hrot =>
    obtain ⟨x, h2, hxid, hxw, hxp, hxk⟩ := rotate_ok s s2 t.workflow_id rid now hrot
    refine inv_trade hinv ht (by simp [activeTask, hr])
      (completeStepsFn_deact t.workflow_id)
      (by simp [completeStepsFn, hk, hr, activeTask]) hxw
      (fun u hu => by rw [hxid]; exact hf u hu) h2
  | activitySuccess s2 t p rid now ht hk hr hf hrec =>
    obtain ⟨x, h2, hxid, hxw, hxp, hxk⟩ := recreate_ok _ s2 t.workflow_id rid now hrec
    have h3 : s2.tasks = s.tasks.map (complFn t.id) ++ [x] := h2
    refine inv_trade hinv ht (by simp [activeTask, hr])
      ((complFn_deact t.id).comp (complFn_deact t.id))
      (by simp [complFn, hr, activeTask, Function.comp]) hxw
      (fun u hu => by rw [hxid]; exact hf u hu) ?_
    show s2.tasks.map (complFn t.id) = _
    rw [h3, List.map_append, List.map_singleton, List.map_map]
    congr 1
    simp [complFn, hxp]
  | activityRetry t run_at err ht hk hr =>
    refine inv_single_update hinv ht (fun x hx => ?_) (fun u => ?_) (fun w => ?_)
      (schedule_retry_tasks s t.id run_at err)
    · simp [retryFn, hx]
    · unfold retryFn; split <;> rfl
    · simp [retryFn, activeTask, hr]
  | activityPermanentFailure t p err ht hk hr =>
    exact inv_tasks_map hinv (failFn_deact t.id err) rfl
  | timerFire s2 t rid now ht hk hr hf hrot =>
    obtain ⟨x, h2, hxid, hxw, hxp, hxk⟩ := rotate_ok _ s2 t.workflow_id rid now hrot
    have h3 : s2.tasks = s.tasks.map (completeStepsFn t.workflow_id) ++ [x] := h2
    refine inv_trade hinv ht (by simp [activeTask, hr])
      ((complFn_deact t.id).comp (completeStepsFn_deact t.workflow_id))
      (by simp [completeStepsFn, complFn, hk, hr, activeTask, Function.comp]) hxw
      (fun u hu => by rw [hxid]; exact hf u hu) ?_
    show s2.tasks.map (complFn t.id) = _
    rw [h3, List.map_append, List.map_singleton, List.map_map]
    congr 1
    simp [complFn, hxp]
  | markFailed s2 wid err tid tk nowS h =>
    rcases workflow_failed_ok s s2 wid err tid tk nowS h with h2 | h2
    · exact inv_tasks_eq hinv h2
    · exact inv_tasks_map hinv (failPendingFn_deact wid "workflow failed") h2
  | markCompleted s2 wid nowS h =>
    rcases complete_workflow_ok s s2 wid nowS h with h2 | h2
    · exact inv_tasks_eq hinv h2
    · exact inv_tasks_map hinv (completeStepsFn_deact wid) h2
  | markCancelled s2 wid reason nowS h =>
    rcases cancel_workflow_ok s s2 wid reason nowS h with h2 | h2
    · exact inv_tasks_eq hinv h2
    · exact inv_tasks_map hinv (failPendingFn_deact wid "workflow cancelled") h2

/-- The invariant holds in every reachable store. -/
theorem reachable_inv (s : Store) (h : Reachable s) : Inv s := by
  induction h with
  | init =>
    exact ⟨List.nodup_nil, fun wid => by simp [activeCount]⟩
  | next s s2 hs hop ih => exact inv_op hop ih

/-! ### Claim theorems. -/

/-- C10: `task_completed` and `task_failed` only touch a RUNNING row with the
given id and never touch events or workflows; with no such row the store is
unchanged.  `schedule_retry` has no status guard: it moves the row with the
given id to PENDING with the new `run_at` whatever its status — in
particular it resurrects a COMPLETED task. -/
theorem c10_task_status_guards (s : Store) (tid err e2 : String) (ra : Nat) :
    ((∀ t ∈ s.tasks, ¬(t.id = tid ∧ t.status = "RUNNING")) →
      task_completed s tid = s ∧ task_failed s tid err = s) ∧
    (task_completed s tid).events = s.events ∧
    (task_completed s tid).workflows = s.workflows ∧
    (task_failed s tid err).events = s.events ∧
    (task_failed s tid err).workflows = s.workflows ∧
    (∀ t ∈ s.tasks, t.id = tid → t.status = "COMPLETED" →
      { t with status := "PENDING", run_at := ra, last_error := some e2 } ∈
        (schedule_retry s tid ra e2).tasks) := by
  refine ⟨fun h => ⟨?_, ?_⟩, rfl, rfl, rfl, rfl, fun t htm hid hst => ?_⟩
  · have hmap : s.tasks.map (complFn tid) = s.tasks := by
      refine (List.map_congr_left fun t htm => ?_).trans (List.map_id s.tasks)
      unfold complFn
      rw [if_neg (h t htm)]
      rfl
    calc task_completed s tid = { s with tasks := s.tasks.map (complFn tid) } := rfl
      _ = { s with tasks := s.tasks } := by rw [hmap]
      _ = s := rfl
  · have hmap : s.tasks.map (failFn tid err) = s.tasks := by
      refine (List.map_congr_left fun t htm => ?_).trans (List.map_id s.tasks)
      unfold failFn
      rw [if_neg (h t htm)]
      rfl
    calc task_failed s tid err = { s with tasks := s.tasks.map (failFn tid err) } := rfl
      _ = { s with tasks := s.tasks } := by rw [hmap]
      _ = s := rfl
  · rw [schedule_retry_tasks]
    refine List.mem_map.mpr ⟨t, htm, ?_⟩
    unfold retryFn
    rw [if_pos hid]

/-- A one-task store for the C10 witness. -/
def c10store : Store :=
  ⟨[], [], [⟨"a", "w", "ACTIVITY", "f", 0, "COMPLETED", 2, 3, none⟩]⟩

/-- The resurrected row the C10 witness expects after `schedule_retry`. -/
def c10retried : Task :=
  ⟨"a", "w", "ACTIVITY", "f", 9, "PENDING", 2, 3, some "late"⟩

/-- C10 witness: on a store holding one COMPLETED task, `task_completed` is
a no-op while `schedule_retry` resurrects the row as PENDING. -/
theorem c10_task_status_guards_witness :
    task_completed c10store "a" = c10store ∧
    c10retried ∈ (schedule_retry c10store "a" 9 "late").tasks := by
  have h := c10_task_status_guards c10store "a" "boom" "late" 9
  refine ⟨(h.1 ?_).1, ?_⟩
  · intro t htm hc
    have : t = (⟨"a", "w", "ACTIVITY", "f", 0, "COMPLETED", 2, 3, none⟩ : Task) := by
      simpa [c10store] using htm
    rw [this] at hc
    simp at hc
  · exact h.2.2.2.2.2 ⟨"a", "w", "ACTIVITY", "f", 0, "COMPLETED", 2, 3, none⟩
      (by simp [c10store]) rfl rfl

/-- C8: when an ACTIVITY execution throws with remaining budget
(`attempts < max_attempts`), the task is rescheduled PENDING with
`run_at = now + min 60 (2 ^ attempts)` and the error recorded, and no event
is appended; with the budget exhausted (`attempts >= max_attempts`), an
ACTIVITY_FAILED event with the name and error is appended and the RUNNING
task row is marked FAILED. -/
theorem c8_retry_policy (reg : Registry) (t : Task) (s : Store) (ncalls : Nat)
    (rid : String) (now : Nat) (ev : Event) (m fn e : String) (args : List Val)
    (hevent : get_activity_event s t.workflow_id t.target t.attempts = some ev)
    (hm : lookupKey ev.payload "module" = some (.str m))
    (hfn : lookupKey ev.payload "func" = some (.str fn))
    (hargs : lookupKey ev.payload "args" = some (.arr args))
    (fnB : List Val → Nat → Except String Val)
    (hreg : reg m fn = some fnB)
    (hthrow : fnB args ncalls = .error e) :
    (t.attempts < t.max_attempts →
      (replay_activity reg t s ncalls rid now).1 =
        schedule_retry s t.id (now + min 60 (2 ^ t.attempts)) e ∧
      (replay_activity reg t s ncalls rid now).1.events = s.events ∧
      (t ∈ s.tasks →
        { t with status := "PENDING", run_at := now + min 60 (2 ^ t.attempts),
                 last_error := some e } ∈
          (replay_activity reg t s ncalls rid now).1.tasks)) ∧
    (t.max_attempts ≤ t.attempts →
      (replay_activity reg t s ncalls rid now).1.events = s.events ++
        [⟨t.workflow_id, "ACTIVITY_FAILED",
          [("name", .str t.target), ("error", .str e)]⟩] ∧
      (t ∈ s.tasks → t.status = "RUNNING" →
        { t with status := "FAILED", last_error := some e } ∈
          (replay_activity reg t s ncalls rid now).1.tasks)) := by
  have hrun : (replay_activity reg t s ncalls rid now).1 =
      if t.max_attempts ≤ t.attempts then
        create_event (task_failed s t.id e) t.workflow_id "ACTIVITY_FAILED"
          [("name", .str t.target), ("error", .str e)]
      else schedule_retry s t.id (now + min 60 (2 ^ t.attempts)) e := by
    simp only [replay_activity, hevent, hm, hfn, hargs, hreg, hthrow]
  constructor
  · intro hlt
    have hno : ¬ t.max_attempts ≤ t.attempts := by omega
    rw [hrun, if_neg hno]
    refine ⟨rfl, rfl, fun htm => ?_⟩
    rw [schedule_retry_tasks]
    refine List.mem_map.mpr ⟨t, htm, ?_⟩
    unfold retryFn
    rw [if_pos rfl]
  · intro hge
    rw [hrun, if_pos hge]
    refine ⟨rfl, fun htm hr => ?_⟩
    show _ ∈ (task_failed s t.id e).tasks
    rw [task_failed_tasks]
    refine List.mem_map.mpr ⟨t, htm, ?_⟩
    unfold failFn
    rw [if_pos ⟨rfl, hr⟩]

/-- Metadata of the C8 witness activity. -/
def c8meta : ActivityMetadata := ⟨"f", "", 3, 60, "f_fn", "mod", []⟩

/-- C8 witness store: one scheduled activity, its task claimed (RUNNING)
with `attempts = 1` of `max_attempts = 3`. -/
def c8store : Store :=
  ⟨[⟨"w", "Wf", "", "1", "RUNNING", "m", .obj []⟩],
   [⟨"w", "ACTIVITY_SCHEDULED", metadataPayload c8meta⟩],
   [⟨"a1", "w", "ACTIVITY", "f", 0, "RUNNING", 1, 3, none⟩]⟩

/-- The claimed task row of the C8 witness. -/
def c8task : Task := ⟨"a1", "w", "ACTIVITY", "f", 0, "RUNNING", 1, 3, none⟩

/-- A registry whose only activity always throws "boom". -/
def c8reg : Registry := fun m f =>
  if m = "mod" ∧ f = "f_fn" then some (fun _ _ => .error "boom") else none

/-- C8 witness: the throwing first attempt of a budget-3 activity is
rescheduled PENDING at `now + 2` with the error recorded and no new event. -/
theorem c8_retry_policy_witness :
    c8task.attempts < c8task.max_attempts ∧
    (replay_activity c8reg c8task c8store 0 "r" 100).1.events = c8store.events ∧
    (⟨"a1", "w", "ACTIVITY", "f", 102, "PENDING", 1, 3, some "boom"⟩ : Task) ∈
      (replay_activity c8reg c8task c8store 0 "r" 100).1.tasks := by
  have h := (c8_retry_policy c8reg c8task c8store 0 "r" 100
    ⟨"ACTIVITY_SCHEDULED", metadataPayload c8meta⟩ "mod" "f_fn" "boom" []
    rfl rfl rfl rfl (fun _ _ => .error "boom") rfl rfl).1 (by decide)
  exact ⟨by decide, h.2.1, h.2.2 (by simp [c8store, c8task])⟩

/-- C2 counterexample store: a workflow already COMPLETED. -/
def c2store : Store :=
  ⟨[⟨"w1", "Wf", "", "1", "COMPLETED", "m", .obj []⟩],
   [⟨"w1", "WORKFLOW_STARTED", []⟩, ⟨"w1", "WORKFLOW_COMPLETED", []⟩],
   []⟩

/-- C2 counterexample: `create_event` appends an event to the log of a
workflow whose status is terminal (COMPLETED) — no store operation refuses,
contradicting the claim that no further events can be appended. -/
theorem c2_terminal_append_counterexample :
    get_workflow_status c2store "w1" = .ok "COMPLETED" ∧
    (create_event c2store "w1" "STATE_SET" [("key", .str "x"), ("value", .int 1)]).events =
      c2store.events ++ [⟨"w1", "STATE_SET", [("key", .str "x"), ("value", .int 1)]⟩] ∧
    (create_event c2store "w1" "STATE_SET"
      [("key", .str "x"), ("value", .int 1)]).events.length = 3 :=
  ⟨rfl, rfl, rfl⟩

lemma status_ok_find (s : Store) (wid st : String)
    (h : get_workflow_status s wid = .ok st) :
    ∃ w, findWorkflow s wid = some w ∧ w.status = st := by
  unfold get_workflow_status at h
  cases hf : findWorkflow s wid with
  | none => rw [hf] at h; exact absurd h (by simp)
  | some w =>
    rw [hf] at h
    exact ⟨w, rfl, by cases h; rfl⟩

/-- C2 amended: `create_event` appends unconditionally regardless of the
workflow's status; `workflow_failed`, `complete_workflow` and
`cancel_workflow` are no-ops exactly when the stored status is "COMPLETED",
"FAILED" or "CANCELED"; but `cancel_workflow` stores the status string
"CANCELLED", which that check does not recognise, so `workflow_failed` on a
cancelled workflow is not a no-op: it appends WORKFLOW_FAILED and re-marks
the workflow FAILED. -/
theorem c2_terminal_finality_amended (s : Store) (wid ty err : String)
    (p : Payload) (st : String) (r : Option String) (nowS : String) :
    ((create_event s wid ty p).events = s.events ++ [⟨wid, ty, p⟩]) ∧
    (get_workflow_status s wid = .ok st → terminalCheck st →
      workflow_failed s wid err none none nowS = .ok s ∧
      complete_workflow s wid nowS = .ok s ∧
      cancel_workflow s wid r nowS = .ok s) ∧
    (get_workflow_status s wid = .ok "CANCELLED" →
      ∃ s2, workflow_failed s wid err none none nowS = .ok s2 ∧
        s2.events = s.events ++
          [⟨wid, "WORKFLOW_FAILED", [("error", .str err), ("failed_at", .str nowS)]⟩] ∧
        get_workflow_status s2 wid = .ok "FAILED") := by
  refine ⟨rfl, fun hst hterm => ?_, fun hst => ?_⟩
  · obtain ⟨w, hf, hws⟩ := status_ok_find s wid st hst
    rw [← hws] at hterm
    refine ⟨?_, ?_, ?_⟩
    · unfold workflow_failed get_workflow_info
      rw [hf]
      simp [hterm]
    · unfold complete_workflow get_workflow_info
      rw [hf]
      simp [hterm]
    · unfold cancel_workflow get_workflow_info
      rw [hf]
      simp [hterm]
  · obtain ⟨w, hf, hws⟩ := status_ok_find s wid "CANCELLED" hst
    have hterm : terminalCheck w.status = false := by
      rw [hws]
      rfl
    refine ⟨⟨s.workflows.map (fun (x : WorkflowRow) =>
        if x.id = wid then { x with status := "FAILED" } else x),
      s.events ++ [⟨wid, "WORKFLOW_FAILED",
        [("error", .str err), ("failed_at", .str nowS)]⟩],
      failPendingTasks s.tasks wid "workflow failed"⟩, ?_, rfl, ?_⟩
    · unfold workflow_failed get_workflow_info
      rw [hf]
      simp [hterm]
      exact ⟨rfl, rfl, rfl⟩
    · have hwid : w.id = wid := by
        have := List.find?_some hf
        simpa using this
      have hpe : (fun (x : WorkflowRow) => decide (x.id = wid)) ∘
          (fun (x : WorkflowRow) =>
            if x.id = wid then { x with status := "FAILED" } else x) =
          (fun (x : WorkflowRow) => decide (x.id = wid)) := by
        funext x
        by_cases hx : x.id = wid <;> simp [hx]
      have hfind : (s.workflows.map (fun (x : WorkflowRow) =>
          if x.id = wid then { x with status := "FAILED" } else x)).find?
            (fun x => x.id = wid) =
          some { w with status := "FAILED" } := by
        rw [List.find?_map, hpe]
        unfold findWorkflow at hf
        rw [hf]
        simp [hwid]
      show get_workflow_status _ wid = _
      unfold get_workflow_status findWorkflow
      simp only [hfind]

/-- C2 amended witness: the COMPLETED workflow of `c2store` makes the
terminal markers no-ops, and after cancelling a RUNNING workflow the status
reads "CANCELLED" and `workflow_failed` flips it to FAILED. -/
theorem c2_terminal_finality_witness :
    (workflow_failed c2store "w1" "late" none none "T" = .ok c2store ∧
      complete_workflow c2store "w1" "T" = .ok c2store ∧
      cancel_workflow c2store "w1" none "T" = .ok c2store) ∧
    (∃ s2, workflow_failed
        ⟨[⟨"w1", "Wf", "", "1", "CANCELLED", "m", .obj []⟩], [], []⟩
        "w1" "late" none none "T" = .ok s2 ∧
      s2.events = [⟨"w1", "WORKFLOW_FAILED",
        [("error", .str "late"), ("failed_at", .str "T")]⟩] ∧
      get_workflow_status s2 "w1" = .ok "FAILED") := by
  constructor
  · exact (c2_terminal_finality_amended c2store "w1" "x" "late" [] "COMPLETED"
      none "T").2.1 rfl rfl
  · exact (c2_terminal_finality_amended
      ⟨[⟨"w1", "Wf", "", "1", "CANCELLED", "m", .obj []⟩], [], []⟩
      "w1" "x" "late" [] "COMPLETED" none "T").2.2 rfl

/-- C7 fixture: a RUNNING workflow. -/
def c7run : Store :=
  ⟨[⟨"w", "Wf", "", "1", "RUNNING", "m", .obj []⟩],
   [⟨"w", "WORKFLOW_STARTED", [("input", .obj [])]⟩],
   []⟩

/-- C7 fixture: a FAILED workflow with a WORKFLOW_FAILED event. -/
def c7failed : Store :=
  ⟨[⟨"w", "Wf", "", "1", "FAILED", "m", .obj []⟩],
   [⟨"w", "WORKFLOW_STARTED", []⟩,
    ⟨"w", "WORKFLOW_FAILED", [("error", .str "boom"), ("failed_at", .str "T")]⟩],
   []⟩

/-- The store produced by cancelling `c7run` (status string "CANCELLED"). -/
def c7canceled : Store :=
  ⟨[⟨"w", "Wf", "", "1", "CANCELLED", "m", .obj []⟩],
   [⟨"w", "WORKFLOW_STARTED", [("input", .obj [])]⟩,
    ⟨"w", "WORKFLOW_CANCELLED",
      [("reason", .str "Cancelled"), ("canceled_at", .str "T")]⟩],
   []⟩

/-- C7: `Handle.result` raises still-running on a RUNNING workflow and the
extracted execution error on a FAILED one, but on a workflow cancelled by
`cancel_workflow` it returns the replayed state map instead of the
cancellation error: the stored status "CANCELLED" never matches the
"CANCELED" the result check tests. -/
theorem c7_result_cancelled_divergence :
    handleResult c7run "w" = .error .stillRunning ∧
    handleResult c7failed "w" = .error (.executionError
      ⟨"WORKFLOW", .str "boom", none, none,
        [("error", .str "boom"), ("failed_at", .str "T")]⟩) ∧
    cancel_workflow c7run "w" none "T" = .ok c7canceled ∧
    handleResult c7canceled "w" = .ok [] ∧
    handleResult c7canceled "w" ≠ .error .cancelled := by
  refine ⟨rfl, rfl, rfl, rfl, fun h => ?_⟩
  exact Except.noConfusion
    ((show handleResult c7canceled "w" = .ok [] from rfl).symm.trans h)

/-- The STATE_UPDATE event on which the two state folds diverge. -/
def c4event : Event := ⟨"STATE_UPDATE", [("values", .obj [("count", .int 1)])]⟩

/-- C4: folding the history through `WorkflowHandle._replay_state` does not
match the state the proxy rebuilds during replay: on a STATE_UPDATE event
the handle merges the raw payload (keeping the "values" wrapper key) while
the proxy replay branch writes the recorded values themselves. -/
theorem c4_state_fold_divergence :
    _replay_state [c4event] = [("values", .obj [("count", .int 1)])] ∧
    proxyReplayState [c4event] = [("count", .int 1)] ∧
    lookupKey (_replay_state [c4event]) "count" = none ∧
    lookupKey (proxyReplayState [c4event]) "count" = some (.int 1) ∧
    _replay_state [c4event] ≠ proxyReplayState [c4event] := by
  refine ⟨rfl, rfl, rfl, rfl, fun h => ?_⟩
  have h3 : lookupKey (_replay_state [c4event]) "count" =
      lookupKey (proxyReplayState [c4event]) "count" := by rw [h]
  exact Option.noConfusion (show (none : Option Val) = some (.int 1) from h3)

/-- The store carried out of a decision point, i.e. the committed writes. -/
def resStore {α : Type} : Res α → Store
  | .ok _ _ s => s
  | .stopReplay _ s => s
  | .nondet _ _ s => s
  | .exn _ _ s => s

lemma skipCount_head (l : List Event) :
    ∀ e, (l.drop (skipCount l)).head? = some e →
      e.type ≠ "STEP_START" ∧ e.type ≠ "STEP_END" := by
  induction l with
  | nil => intro e h; simp at h
  | cons a rest ih =>
    intro e h
    by_cases ha : a.type = "STEP_START" ∨ a.type = "STEP_END"
    · unfold skipCount at h
      rw [if_pos ha, List.drop_succ_cons] at h
      exact ih e h
    · unfold skipCount at h
      rw [if_neg ha] at h
      simp at h
      push_neg at ha
      rw [← h]
      exact ha

lemma skipCount_drop_self (l : List Event) :
    skipCount (l.drop (skipCount l)) = 0 := by
  cases h : l.drop (skipCount l) with
  | nil => rfl
  | cons a m =>
    have ha := skipCount_head l a (by rw [h]; rfl)
    unfold skipCount
    rw [if_neg (by simp [ha.1, ha.2])]

lemma skip_peek_not_step (ctx : Ctx) (e : Event)
    (h : _peek (_skip_step_events ctx) = some e) :
    e.type ≠ "STEP_START" ∧ e.type ≠ "STEP_END" := by
  unfold _peek _skip_step_events at h
  simp only at h
  rw [List.get?_eq_getElem?] at h
  have h2 : ((ctx.history.drop ctx.cursor).drop
      (skipCount (ctx.history.drop ctx.cursor))).head? = some e := by
    rw [List.head?_drop, List.getElem?_drop]
    exact h
  exact skipCount_head (ctx.history.drop ctx.cursor) e h2

lemma skip_idem (ctx : Ctx) :
    _skip_step_events (_skip_step_events ctx) = _skip_step_events ctx := by
  unfold _skip_step_events
  simp only
  have hd : ctx.history.drop (ctx.cursor + skipCount (ctx.history.drop ctx.cursor)) =
      (ctx.history.drop ctx.cursor).drop (skipCount (ctx.history.drop ctx.cursor)) := by
    rw [List.drop_drop, Nat.add_comm]
  rw [hd, skipCount_drop_self]
  rfl

/-- C6 counterexample context: the next event is a TIMER_SCHEDULED, mid
history, yet `state.set` performs no non-determinism check. -/
def c6ctx : Ctx :=
  { id := "w", input := .obj [], history := [⟨"TIMER_SCHEDULED",
      [("timer_id", .str "t"), ("fire_at", .int 5)]⟩],
    cursor := 0, original_len := 1, state := [], batch := none }

/-- C6 counterexample: at the `state.set` decision point with a next event
of an inconsistent type (TIMER_SCHEDULED) and the cursor not at
end-of-history, no non-deterministic-workflow error is raised; instead a
new STATE_SET event is appended to the store and `StopReplay` is raised —
contradicting both halves of the claim for this decision point. -/
theorem c6_state_set_counterexample :
    is_at_end_of_history c6ctx = false ∧
    state_set c6ctx ⟨[], [], []⟩ "a" (.int 1) =
      .stopReplay
        { c6ctx with history := c6ctx.history ++
            [⟨"STATE_SET", [("key", .str "a"), ("value", .int 1)]⟩] }
        ⟨[], [⟨"w", "STATE_SET", [("key", .str "a"), ("value", .int 1)]⟩], []⟩ ∧
    (resStore (state_set c6ctx ⟨[], [], []⟩ "a" (.int 1))).events.length = 1 :=
  ⟨rfl, rfl, rfl⟩

/-- C6 amended: the activity, sleep and wait_until_signal decision points do
raise a non-deterministic-workflow error when the next non-housekeeping
event has an inconsistent type or name (leaving the store untouched), and
write their scheduling event exactly when the cursor is at end-of-history
(`wait_until_signal` never writes at all); but the `state.set` /
`state.update` decision points perform no such check — on any non-matching
next event they append the new state event even mid-history, raising
`StopReplay`, never a non-determinism error — `state.update` emits both
when the next event has another type and when it is a STATE_UPDATE whose
recorded key set disagrees with the updaters'. -/
theorem c6_decision_points_amended (ctx : Ctx) (s : Store)
    (meta : ActivityMetadata) (aid : String) (now fire_at : Nat)
    (tid sname k : String) (v : Val)
    (updaters : List (String × (Option Val → Val))) :
    (∀ e, _peek (_skip_step_events ctx) = some e →
      e.type ≠ "ACTIVITY_SCHEDULED" →
      ∃ msg c2, ctxActivity ctx s meta aid now = .nondet msg c2 s) ∧
    (∀ e n, _peek (_skip_step_events ctx) = some e →
      e.type = "ACTIVITY_SCHEDULED" →
      lookupKey e.payload "name" = some (.str n) → n ≠ meta.name →
      ∃ msg c2, ctxActivity ctx s meta aid now = .nondet msg c2 s) ∧
    (∀ e, _peek (_skip_step_events ctx) = some e →
      resStore (ctxActivity ctx s meta aid now) = s) ∧
    (_peek (_skip_step_events ctx) = none →
      ctxActivity ctx s meta aid now =
        .stopReplay (_skip_step_events ctx) (create_activity s ctx.id meta aid now)) ∧
    (∀ e, _peek (_skip_step_events ctx) = some e →
      e.type ≠ "TIMER_SCHEDULED" →
      ∃ msg c2, ctxSleep ctx s fire_at tid = .nondet msg c2 s) ∧
    (∀ e, _peek (_skip_step_events ctx) = some e →
      resStore (ctxSleep ctx s fire_at tid) = s) ∧
    (_peek (_skip_step_events ctx) = none →
      ctxSleep ctx s fire_at tid =
        .stopReplay (_skip_step_events ctx) (create_timer s ctx.id fire_at tid)) ∧
    (∀ e, _peek (_skip_step_events ctx) = some e →
      e.type ≠ "SIGNAL_RECEIVED" →
      ∃ msg c2, wait_until_signal ctx s sname = .nondet msg c2 s) ∧
    (resStore (wait_until_signal ctx s sname) = s) ∧
    (∀ e, ctx.batch = none → _peek ctx = some e → e.type ≠ "STATE_SET" →
      state_set ctx s k v = .stopReplay
        { ctx with history := ctx.history ++
            [⟨"STATE_SET", [("key", .str k), ("value", v)]⟩] }
        (create_event s ctx.id "STATE_SET" [("key", .str k), ("value", v)])) ∧
    (∀ e, ctx.batch = none → _peek ctx = some e → e.type ≠ "STATE_UPDATE" →
      state_update ctx s updaters = .stopReplay
        { ctx with history := ctx.history ++
            [⟨"STATE_UPDATE", [("values", .obj (updaters.map
              (fun kf => (kf.1, kf.2 (lookupKey ctx.state kf.1)))))]⟩] }
        (create_event s ctx.id "STATE_UPDATE" [("values", .obj (updaters.map
          (fun kf => (kf.1, kf.2 (lookupKey ctx.state kf.1)))))])) ∧
    (∀ e kvs, ctx.batch = none → _peek ctx = some e →
      e.type = "STATE_UPDATE" →
      lookupKey e.payload "values" = some (.obj kvs) →
      keysSetEq (kvs.map Prod.fst) (updaters.map Prod.fst) = false →
      state_update ctx s updaters = .stopReplay
        { ctx with history := ctx.history ++
            [⟨"STATE_UPDATE", [("values", .obj (updaters.map
              (fun kf => (kf.1, kf.2 (lookupKey ctx.state kf.1)))))]⟩] }
        (create_event s ctx.id "STATE_UPDATE" [("values", .obj (updaters.map
          (fun kf => (kf.1, kf.2 (lookupKey ctx.state kf.1)))))])) := by
  refine ⟨?_, ?_, ?_, ?_, ?_, ?_, ?_, ?_, ?_, ?_, ?_, ?_⟩
  · intro e hpeek hty
    refine ⟨"unexpected event before activity", _skip_step_events ctx, ?_⟩
    unfold ctxActivity _match_event
    simp [hpeek, hty, skip_idem]
  · intro e n hpeek hty hname hne
    refine ⟨"activity name mismatch", _skip_step_events ctx, ?_⟩
    unfold ctxActivity _match_event
    simp [hpeek, hty, hname, hne]
  · intro e hpeek
    unfold ctxActivity _match_event
    simp only [hpeek, skip_idem]
    repeat' split
    all_goals rfl
  · intro hend
    unfold ctxActivity _match_event
    simp only [hend, skip_idem]
    rfl
  · intro e hpeek hty
    refine ⟨"unexpected event before sleep", _skip_step_events ctx, ?_⟩
    unfold ctxSleep _match_event
    simp [hpeek, hty, skip_idem]
  · intro e hpeek
    unfold ctxSleep _match_event
    simp only [hpeek, skip_idem]
    repeat' split
    all_goals rfl
  · intro hend
    unfold ctxSleep _match_event
    simp only [hend, skip_idem]
    rfl
  · intro e hpeek hty
    refine ⟨"unexpected event before signal", _skip_step_events ctx, ?_⟩
    unfold wait_until_signal _match_event
    simp [hpeek, hty, skip_idem]
  · unfold wait_until_signal _match_event
    simp only [skip_idem]
    repeat' split
    all_goals rfl
  · intro e hbatch hpeek hty
    unfold state_set _append_event
    simp only [hpeek, hty, if_false, hbatch]
  · intro e hbatch hpeek hty
    unfold state_update _append_event
    simp only [hpeek, hty, if_false, hbatch]
  · intro e kvs hbatch hpeek hty hvals hkeys
    unfold state_update _append_event
    simp [hpeek, hty, hvals, hkeys, hbatch]

/-- Metadata of the activity the C6 witness requests. -/
def c6meta : ActivityMetadata := ⟨"g", "", 1, 60, "g_fn", "mod", []⟩

/-- C6 witness: with a TIMER_SCHEDULED event at the cursor, the activity
decision point raises a non-determinism error, the signal decision point
never writes to the store, and `state.update` appends its new STATE_UPDATE
event to the store mid-history. -/
theorem c6_decision_points_witness :
    (∃ msg c2, ctxActivity c6ctx ⟨[], [], []⟩ c6meta "a2" 0 =
      .nondet msg c2 ⟨[], [], []⟩) ∧
    resStore (wait_until_signal c6ctx ⟨[], [], []⟩ "go") = ⟨[], [], []⟩ ∧
    resStore (state_update c6ctx ⟨[], [], []⟩ [("k", fun _ => .int 1)]) =
      ⟨[], [⟨"w", "STATE_UPDATE", [("values", .obj [("k", .int 1)])]⟩], []⟩ := by
  have h := c6_decision_points_amended c6ctx ⟨[], [], []⟩ c6meta "a2" 0 0 "t" "go"
    "k" (.int 0) [("k", fun _ => .int 1)]
  refine ⟨h.1 ⟨"TIMER_SCHEDULED", [("timer_id", .str "t"), ("fire_at", .int 5)]⟩
    rfl (by simp), h.2.2.2.2.2.2.2.2.1, ?_⟩
  have h11 := h.2.2.2.2.2.2.2.2.2.2.1
    ⟨"TIMER_SCHEDULED", [("timer_id", .str "t"), ("fire_at", .int 5)]⟩
    rfl rfl (by simp)
  rw [h11]
  rfl

/-- The single no-op step "a" of the C5 workflow. -/
def c5steps : List StepDef := [⟨"a", "a_fn", fun ctx s => .ok () ctx s⟩]

/-- C5 store: the recorded STEP_START names step "b" while the code's first
step is named "a". -/
def c5store : Store :=
  ⟨[⟨"w", "Wf", "", "1", "RUNNING", "m", .obj []⟩],
   [⟨"w", "WORKFLOW_STARTED", [("input", .obj [])]⟩,
    ⟨"w", "STEP_START", [("step_name", .str "b")]⟩],
   []⟩

/-- A mismatch store whose history continues past the cursor and ends with
a STATE_SET, the shape on which the engine rotates the driver. -/
def c5storeF : Store :=
  ⟨[⟨"w", "Wf", "", "1", "RUNNING", "m", .obj []⟩],
   [⟨"w", "WORKFLOW_STARTED", [("input", .obj [])]⟩,
    ⟨"w", "STEP_START", [("step_name", .str "b")]⟩,
    ⟨"w", "STATE_SET", [("key", .str "x"), ("value", .int 1)]⟩],
   []⟩

/-- C5 counterexample: on a STEP_START whose recorded step name disagrees
with the step about to run, `replay_until_block` returns with the store
untouched — no WORKFLOW_FAILED event, status still RUNNING.  The mismatch
raises `StopReplay` (the ordinary suspension sentinel, engine.py:100), not
a non-deterministic-workflow error. -/
theorem c5_step_mismatch_counterexample :
    replay_until_block c5steps c5store "w" "T" "r1" 0 = .ok c5store ∧
    get_workflow_status c5store "w" = .ok "RUNNING" ∧
    c5store.events.map EventRow.type = ["WORKFLOW_STARTED", "STEP_START"] :=
  ⟨rfl, rfl, rfl⟩

/-- The step loop of the engine on a mismatching STEP_START: wherever the
cursor stands, if the recorded step name disagrees with the step to run,
the loop raises `StopReplay` with context and store untouched — never a
non-determinism error. -/
lemma runSteps_mismatch_stop (st : StepDef) (rest : List StepDef) (ctx : Ctx)
    (s : Store) (nowS : String) (e : Event) (n : String)
    (hpeek : _peek ctx = some e) (hty : e.type = "STEP_START")
    (hn : lookupKey e.payload "step_name" = some (.str n)) (hne : n ≠ st.name) :
    runSteps (st :: rest) ctx s nowS = .stopReplay ctx s := by
  unfold runSteps _match_event
  simp [hpeek, hty, hn, hne]

/-- A driver rotation never appends an event and never touches a workflow
row: it only completes the running STEP tasks and inserts a fresh one. -/
lemma rotate_frame (s s2 : Store) (wid rid : String) (now : Nat)
    (h : rotate_workflow_driver s wid rid now = .ok s2) :
    s2.events = s.events ∧ s2.workflows = s.workflows := by
  unfold rotate_workflow_driver at h
  cases hf : get_workflow_info s wid with
  | error e => simp [hf] at h
  | ok w =>
    simp only [hf] at h
    cases h
    exact ⟨rfl, rfl⟩

/-- C5 amended: whenever the STEP_START event at the cursor carries a
step_name different from the step the code is about to run, the engine
raises `StopReplay` — the ordinary suspension sentinel — with context and
store untouched, never a non-deterministic-workflow error; the tick then
ends exactly as any other suspension does: the driver is rotated when the
last history event is STATE_SET or STATE_UPDATE and nothing happens
otherwise — and a rotation appends no event and touches no workflow row,
so in either case no WORKFLOW_FAILED is written and the workflow is not
marked FAILED. -/
theorem c5_step_mismatch_amended :
    (∀ (st : StepDef) (rest : List StepDef) (ctx : Ctx) (s : Store)
       (nowS : String) (e : Event) (n : String),
      _peek ctx = some e → e.type = "STEP_START" →
      lookupKey e.payload "step_name" = some (.str n) → n ≠ st.name →
      runSteps (st :: rest) ctx s nowS = .stopReplay ctx s) ∧
    (∀ (s : Store) (wid nowS rid : String) (now : Nat) (w : WorkflowRow)
       (st : StepDef) (rest : List StepDef) (q p : Payload) (n ty : String)
       (tl : List Event),
      findWorkflow s wid = some w →
      get_workflow_events s wid =
        ⟨"WORKFLOW_STARTED", q⟩ :: ⟨"STEP_START", p⟩ :: tl →
      lookupKey p "step_name" = some (.str n) → n ≠ st.name →
      ((⟨"STEP_START", p⟩ :: tl : List Event).getLast?).map (fun e => e.type) =
        some ty →
      replay_until_block (st :: rest) s wid nowS rid now =
        if ty = "STATE_SET" ∨ ty = "STATE_UPDATE" then
          rotate_workflow_driver s wid rid now
        else .ok s) ∧
    (∀ (s s2 : Store) (wid rid : String) (now : Nat),
      rotate_workflow_driver s wid rid now = .ok s2 →
      s2.events = s.events ∧ s2.workflows = s.workflows) := by
  refine ⟨runSteps_mismatch_stop, ?_, rotate_frame⟩
  intro s wid nowS rid now w st rest q p n ty tl hf hh hn hne hlast
  unfold replay_until_block get_workflow_info
  rw [hf, hh]
  have hstop := runSteps_mismatch_stop st rest
    { id := wid, input := w.input,
      history := ⟨"WORKFLOW_STARTED", q⟩ :: ⟨"STEP_START", p⟩ :: tl,
      cursor := 0 + 1,
      original_len := (⟨"WORKFLOW_STARTED", q⟩ :: ⟨"STEP_START", p⟩ ::
        tl : List Event).length,
      state := [], batch := none } s nowS ⟨"STEP_START", p⟩ n rfl rfl hn hne
  simp only [_peek, _consume, List.get?_cons_zero]
  simp only [show ("WORKFLOW_STARTED" = "WORKFLOW_STARTED") = True from by simp,
    if_true]
  rw [hstop]
  simp only [last_emitted_event_type, List.getLast?_cons_cons, hlast]

/-- C5 witness: the amended statement at two concrete mismatch stores — one
whose history ends at the mismatching STEP_START (no rotation, store
unchanged) and one whose history continues with a STATE_SET (the driver is
rotated, nothing else happens). -/
theorem c5_step_mismatch_witness :
    replay_until_block c5steps c5store "w" "T" "r1" 0 = .ok c5store ∧
    replay_until_block c5steps c5storeF "w" "T" "r1" 7 =
      rotate_workflow_driver c5storeF "w" "r1" 7 := by
  unfold c5steps
  constructor
  · have h2 := c5_step_mismatch_amended.2.1 c5store "w" "T" "r1" 0
      ⟨"w", "Wf", "", "1", "RUNNING", "m", .obj []⟩
      ⟨"a", "a_fn", fun ctx s => .ok () ctx s⟩ []
      [("input", .obj [])] [("step_name", .str "b")] "b" "STEP_START" []
      rfl rfl rfl (by simp) rfl
    rw [h2, if_neg (by simp)]
  · have h2 := c5_step_mismatch_amended.2.1 c5storeF "w" "T" "r1" 7
      ⟨"w", "Wf", "", "1", "RUNNING", "m", .obj []⟩
      ⟨"a", "a_fn", fun ctx s => .ok () ctx s⟩ []
      [("input", .obj [])] [("step_name", .str "b")] "b" "STATE_SET"
      [⟨"STATE_SET", [("key", .str "x"), ("value", .int 1)]⟩]
      rfl rfl rfl (by simp) rfl
    rw [h2, if_pos (by simp)]

/-- Python sequencing inside a step body: run the next statement with the
returned value, propagating `StopReplay` and exceptions. -/
def Res.bind {α β : Type} (r : Res α) (f : α → Ctx → Store → Res β) : Res β :=
  match r with
  | .ok a ctx s => f a ctx s
  | .stopReplay c s => .stopReplay c s
  | .nondet m c s => .nondet m c s
  | .exn m c s => .exn m c s

/-- The single step of the C3 workflow: `payload = await
ctx.wait_until_signal("go"); await ctx.state.set("received", payload)`. -/
def c3step : StepDef :=
  ⟨"waiting", "waiting", fun ctx s =>
    (wait_until_signal ctx s "go").bind (fun v ctx s => state_set ctx s "received" v)⟩

/-- The store of a workflow suspended inside `wait_until_signal("go")`: the
driver STEP task was completed on suspension and no waker task exists. -/
def c3preSignal : Store :=
  ⟨[⟨"w", "SigWf", "", "1", "RUNNING", "m", .obj []⟩],
   [⟨"w", "WORKFLOW_STARTED", [("input", .obj [])]⟩,
    ⟨"w", "STEP_START", [("step_name", .str "waiting"), ("step_fn", .str "waiting"),
       ("started_at", .str "T0")]⟩],
   [⟨"t1", "w", "STEP", "SigWf", 0, "COMPLETED", 1, 1, none⟩]⟩

/-- The same store after `Handle.signal("go", (n := 7))`. -/
def c3postSignal : Store :=
  { c3preSignal with events := c3preSignal.events ++
      [⟨"w", "SIGNAL_RECEIVED", [("name", .str "go"),
         ("payload", .obj [("n", .int 7)]), ("sent_at", .str "T1")]⟩] }

/-- C3: `Handle.signal` only appends the SIGNAL_RECEIVED event — it neither
rotates the driver nor creates any task, so no PENDING/RUNNING task exists
afterwards and no new tick can run; and even when a tick does replay, the
resumed `wait_until_signal` reads `payload["data"]`, a key the signal
payload (stored under "payload") does not have, so the KeyError marks the
workflow FAILED instead of completing it with `state.received == (n := 7)`. -/
theorem c3_signal_divergence :
    handleSignal c3preSignal "w" "go" [("n", .int 7)] "T1" = .ok c3postSignal ∧
    c3postSignal.tasks = c3preSignal.tasks ∧
    activeCount c3postSignal "w" = 0 ∧
    stepDriverCount c3postSignal "w" = 0 ∧
    (match replay_until_block [c3step] c3postSignal "w" "T2" "r9" 5 with
     | .ok s2 =>
        get_workflow_status s2 "w" = .ok "FAILED" ∧
        s2.events.map EventRow.type =
          ["WORKFLOW_STARTED", "STEP_START", "SIGNAL_RECEIVED", "WORKFLOW_FAILED"] ∧
        lookupKey (_replay_state (get_workflow_events s2 "w")) "received" = none
     | .error _ => False) :=
  ⟨rfl, rfl, rfl, rfl, rfl, rfl, rfl⟩

/-- Metadata of the C1 activity (`retry_count = 3`). -/
def c1meta : ActivityMetadata := ⟨"greet", "", 3, 60, "greet_fn", "mod", [.str "World"]⟩

/-- The store right after the activity was scheduled: one ACTIVITY_SCHEDULED
event and one PENDING ACTIVITY task with `max_attempts = 3`. -/
def c1s0 : Store :=
  ⟨[⟨"w", "Wf", "", "1", "RUNNING", "m", .obj []⟩],
   [⟨"w", "WORKFLOW_STARTED", [("input", .obj [])]⟩,
    ⟨"w", "STEP_START", [("step_name", .str "s1"), ("step_fn", .str "s1"),
       ("started_at", .str "T0")]⟩,
    ⟨"w", "ACTIVITY_SCHEDULED", metadataPayload c1meta⟩],
   [⟨"d1", "w", "STEP", "Wf", 0, "COMPLETED", 1, 1, none⟩,
    ⟨"a1", "w", "ACTIVITY", "greet", 0, "PENDING", 0, 3, none⟩]⟩

/-- The scenario-B activity behavior: throws on its first two invocations
and succeeds from the third on. -/
def c1reg : Registry := fun m f =>
  if m = "mod" ∧ f = "greet_fn" then
    some (fun _ n => if n < 2 then .error "boom" else .ok (.str "Hello, World!"))
  else none

/-- No workflows are dispatched in the C1 trace (only the ACTIVITY task
ever becomes claimable). -/
def c1wreg : WfRegistry := fun _ _ => none

/-- First worker pass, at time 100: claims the activity (attempts 1). -/
def c1run1 : Store × Nat := run_once c1wreg c1reg c1s0 0 100 "T1" "f1"

/-- Second pass at time 200 (after the 2-second backoff). -/
def c1run2 : Store × Nat := run_once c1wreg c1reg c1run1.1 c1run1.2 200 "T2" "f2"

/-- Third pass at time 300 (after the 4-second backoff). -/
def c1run3 : Store × Nat := run_once c1wreg c1reg c1run2.1 c1run2.2 300 "T3" "f3"

/-- C1: with `retry_count = 3` and an activity that fails twice then
succeeds, the executor does NOT recover the arguments from the same
ACTIVITY_SCHEDULED event on retries: `get_activity_event` skips
`attempts - 1` scheduled rows, so the second and third attempts find no
event at all ("No event found for activity"), the function is invoked only
once, an ACTIVITY_FAILED is appended, the task ends FAILED with
`attempts = 3`, and the workflow never reaches COMPLETED. -/
theorem c1_retry_budget_divergence :
    c1run3.1.events.map EventRow.type =
      ["WORKFLOW_STARTED", "STEP_START", "ACTIVITY_SCHEDULED", "ACTIVITY_FAILED"] ∧
    (c1run3.1.events.filter (fun e => e.type = "ACTIVITY_SCHEDULED")).length = 1 ∧
    (c1run3.1.events.filter (fun e => e.type = "ACTIVITY_COMPLETED")).length = 0 ∧
    c1run3.1.tasks = [⟨"d1", "w", "STEP", "Wf", 0, "COMPLETED", 1, 1, none⟩,
      ⟨"a1", "w", "ACTIVITY", "greet", 204, "FAILED", 3, 3,
        some "No event found for activity"⟩] ∧
    get_workflow_status c1run3.1 "w" = .ok "RUNNING" ∧
    c1run3.2 = 1 :=
  ⟨rfl, rfl, rfl, rfl, rfl, rfl⟩

/-- C9: in every store reachable by the core operations, each workflow has
at most one STEP task that is PENDING or RUNNING. -/
theorem c9_driver_uniqueness (s : Store) (h : Reachable s) (wid : String) :
    stepDriverCount s wid ≤ 1 := by
  have hinv := reachable_inv s h
  refine le_trans (List.countP_mono_left fun t _ ht => ?_) (hinv.2 wid)
  simp only [Bool.and_eq_true, decide_eq_true_eq, Bool.or_eq_true] at ht
  simp [activeTask, ht.1.1, ht.2]

/-- Workflow metadata used by the C9 witness. -/
def c9wfInput : WorkflowInput := ⟨"Wf", "", "1", "RUNNING", "m"⟩

/-- The store after creating one workflow from the empty store. -/
def c9s1 : Store := create_workflow ⟨[], [], []⟩ c9wfInput (.obj []) "w" "t1" 0

/-- C9 witness: the store after one `create_workflow` is reachable and its
driver count is exactly one. -/
theorem c9_driver_uniqueness_witness :
    stepDriverCount c9s1 "w" ≤ 1 ∧ stepDriverCount c9s1 "w" = 1 := by
  refine ⟨c9_driver_uniqueness c9s1 ?_ "w", rfl⟩
  exact Reachable.next _ _ Reachable.init
    (Op.createWorkflow _ c9wfInput (.obj []) "w" "t1" 0 rfl
      ⟨by simp, by simp⟩ (by intro t htm; cases htm))

end Loom
